import Mathlib

/-!
Verification of the incident-correlator engine (normalizer + discovery + scorer)
against its natural-language specification.

Embedding conventions:
* Python floats are modelled as exact rationals (`ℚ`).  All numeric values that
  the claims mention are decimal fractions on which float and rational
  arithmetic agree.
* The float operation `x ** 0.5` (square root) appearing in the time-decay
  formula is modelled as an uninterpreted parameter `sq : ℚ → ℚ`, threaded
  through the scorer.  None of the concrete scenarios evaluated below take a
  branch in which `sq` is applied, so any instantiation is faithful there.
* `round(x, 1)` is modelled as `round1` (round half up at one decimal).  The
  values appearing in the claims are not half-way cases.
* Python `datetime` values are modelled as a record of calendar fields,
  compared via their total-second count (proleptic Gregorian, year 1..9999,
  mirroring `datetime.MINYEAR`/`MAXYEAR`).
* Python `set` objects are modelled as insertion-ordered duplicate-free lists
  (`sinsert`) where the claims are about list outputs, and as `Finset String`
  for the diagnostic match sets of the scorer (CPython set iteration order is
  unspecified across processes; every claim below is order-independent).
-/

namespace IncidentCorrelator

/-! ### Calendar arithmetic (proleptic Gregorian, as Python `datetime`) -/

def isLeap (y : Nat) : Bool :=
  y % 4 == 0 && (y % 100 != 0 || y % 400 == 0)

def daysInMonth (y m : Nat) : Nat :=
  if m == 2 then (if isLeap y then 29 else 28)
  else if m == 4 || m == 6 || m == 9 || m == 11 then 30
  else 31

def daysBeforeMonth (y m : Nat) : Nat :=
  (List.range (m - 1)).foldl (fun acc i => acc + daysInMonth y (i + 1)) 0

def daysBeforeYear (y : Nat) : Nat :=
  let n := y - 1
  365 * n + n / 4 + n / 400 - n / 100

/-- Day number of a calendar date, with 0001-01-01 as day zero. -/
def toDayNumber (y m d : Nat) : Nat :=
  daysBeforeYear y + daysBeforeMonth y m + (d - 1)

/-- A `datetime` value: calendar fields, to-the-second precision. -/
structure DT where
  year : Nat
  month : Nat
  day : Nat
  hour : Nat
  minute : Nat
  second : Nat
deriving DecidableEq, Repr

def DT.toSecs (t : DT) : ℤ :=
  ((toDayNumber t.year t.month t.day) * 86400
    + t.hour * 3600 + t.minute * 60 + t.second : Nat)

/-- Chronological order on `datetime` values (valid dates only appear). -/
def DT.le (a b : DT) : Prop := a.toSecs ≤ b.toSecs

def DT.lt (a b : DT) : Prop := a.toSecs < b.toSecs

instance : DecidableRel DT.le := fun a b =>
  inferInstanceAs (Decidable (a.toSecs ≤ b.toSecs))

instance : DecidableRel DT.lt := fun a b =>
  inferInstanceAs (Decidable (a.toSecs < b.toSecs))

def DT.valid (t : DT) : Bool :=
  1 ≤ t.year && t.year ≤ 9999 && 1 ≤ t.month && t.month ≤ 12 &&
  1 ≤ t.day && t.day ≤ daysInMonth t.year t.month &&
  t.hour ≤ 23 && t.minute ≤ 59 && t.second ≤ 59

def digitVal (c : Char) : Nat := c.toNat - 48

def twoDig (a b : Char) : Nat := 10 * digitVal a + digitVal b

def fourDig (a b c d : Char) : Nat :=
  1000 * digitVal a + 100 * digitVal b + 10 * digitVal c + digitVal d

/-- Parse the strict ISO form `YYYY-MM-DDTHH:MM:SS` (zero-padded, as every
datetime this system formats).  Returns `none` on any malformed or
out-of-range input, as `strptime` raising `ValueError`. -/
def parseISO19 (cs : List Char) : Option DT :=
  match cs with
  | [y1, y2, y3, y4, s1, m1, m2, s2, d1, d2, st, h1, h2, c1, n1, n2, c2, x1, x2] =>
    if [y1, y2, y3, y4, m1, m2, d1, d2, h1, h2, n1, n2, x1, x2].all Char.isDigit
        && s1 == '-' && s2 == '-' && st == 'T' && c1 == ':' && c2 == ':' then
      let t : DT := ⟨fourDig y1 y2 y3 y4, twoDig m1 m2, twoDig d1 d2,
                     twoDig h1 h2, twoDig n1 n2, twoDig x1 x2⟩
      if t.valid then some t else none
    else none
  | _ => none

/-! ### Scorer (services/scorer.py) -/

/-- `parse_datetime`: strips every `Z`, then `strptime "%Y-%m-%dT%H:%M:%S"`;
`None` and the empty string parse to `None`. -/
def parse_datetime (dt_str : Option String) : Option DT :=
  match dt_str with
  | none => none
  | some s => parseISO19 (s.data.filter (fun c => c ≠ 'Z'))

/-- `round(x, 1)`: one-decimal rounding (half up; no claim value is a tie). -/
def round1 (x : ℚ) : ℚ := (round (10 * x) : ℤ) / 10

/-- `jaccard_similarity` on string sets. -/
def jaccard_similarity (set1 set2 : Finset String) : ℚ :=
  if set1 = ∅ ∨ set2 = ∅ then 0
  else
    let intersection := (set1 ∩ set2).card
    let union := (set1 ∪ set2).card
    if 0 < union then (intersection : ℚ) / union else 0

def isPySpace (c : Char) : Bool :=
  c == ' ' || c == '\t' || c == '\n' || c == '\r' || c.toNat == 11 || c.toNat == 12

def stripChars (cs : List Char) : List Char :=
  ((cs.dropWhile isPySpace).reverse.dropWhile isPySpace).reverse

/-- Python `str.strip()` (whitespace at both ends). -/
def strStrip (s : String) : String := ⟨stripChars s.data⟩

/-- Python `str.lower()` (ASCII case folding, as `Char.toLower`). -/
def strLower (s : String) : String := ⟨s.data.map Char.toLower⟩

/-- Python `str.upper()`. -/
def strUpper (s : String) : String := ⟨s.data.map Char.toUpper⟩

/-- Python substring test `a in b`. -/
def strIn (a b : String) : Bool := b.data.tails.any (fun t => a.data.isPrefixOf t)

/-- Python truthiness-respecting `a or b` on optional strings: `None` and the
empty string are falsy. -/
def pyOr (a b : Option String) : Option String :=
  match a with
  | some s => if s = "" then b else some s
  | none => b

/-- `set(x.lower().strip() for x in l if x)`: the set built by the scorer from
an entity list. -/
def pySetLS (l : List String) : Finset String :=
  ((l.filter (fun s => s ≠ "")).map (fun s => strStrip (strLower s))).toFinset

/-- A live interval as stored on a ticket: two ISO strings (source keys
`start`/`end`). -/
structure Interval where
  start : String
  stop : String
deriving DecidableEq, Repr

/-- `ScoreDetail`: sub-score value plus the concrete match set.  The
free-text `reason` diagnostic is not modelled; the match list is modelled by
its underlying set (CPython set iteration order is unspecified). -/
structure ScoreDetail where
  score : ℚ
  matchSet : Finset String
deriving DecidableEq

def pad2 (n : Nat) : String := if n < 10 then "0" ++ toString n else toString n

def pad4 (n : Nat) : String :=
  if n < 10 then "000" ++ toString n
  else if n < 100 then "00" ++ toString n
  else if n < 1000 then "0" ++ toString n
  else toString n

/-- `strftime "%H:%M"`. -/
def fmtHM (t : DT) : String := pad2 t.hour ++ ":" ++ pad2 t.minute

/-- `strftime "%Y-%m-%d %H:%M"`. -/
def fmtYMDHM (t : DT) : String :=
  pad4 t.year ++ "-" ++ pad2 t.month ++ "-" ++ pad2 t.day ++ " " ++ fmtHM t

/-- Distance in minutes from an impact instant to one interval, as computed in
the scorer's minimum-distance loop. -/
def distToInterval (t s e : DT) : ℚ :=
  if t.lt s then ((s.toSecs - t.toSecs : ℤ) : ℚ) / 60
  else if e.lt t then ((t.toSecs - e.toSecs : ℤ) : ℚ) / 60
  else 0

/-- One step of the minimum-distance loop of `calculate_time_score`: update
the running minimum (`None` models the initial `float('inf')`); intervals
with an unparseable endpoint are skipped. -/
def minDistStep (impact : DT) (acc : Option ℚ) (iv : Interval) : Option ℚ :=
  match parse_datetime (some iv.start), parse_datetime (some iv.stop) with
  | some s, some e =>
    let d := distToInterval impact s e
    match acc with
    | none => some d
    | some m => if d < m then some d else some m
  | _, _ => acc

/-- The minimum-distance fold of `calculate_time_score`. -/
def minDistLoop (impact : DT) (ivs : List Interval) : Option ℚ :=
  ivs.foldl (minDistStep impact) none

/-- `calculate_time_score`.  `sq` stands for the float operation `** 0.5`. -/
def calculate_time_score (sq : ℚ → ℚ) (inc_first_impact inc_created : Option String)
    (teccm_live_intervals : List Interval)
    (teccm_planned_start teccm_planned_end : Option String)
    (decay_hours : ℚ) : ScoreDetail :=
  let impact_str := pyOr inc_first_impact inc_created
  match parse_datetime impact_str with
  | none => ⟨0, ∅⟩
  | some impact_time =>
    -- 1. live intervals: containment, then decayed minimum distance
    let containing := teccm_live_intervals.find? (fun iv =>
      match parse_datetime (some iv.start), parse_datetime (some iv.stop) with
      | some s, some e => decide (s.le impact_time) && decide (impact_time.le e)
      | _, _ => false)
    match containing with
    | some iv =>
      match parse_datetime (some iv.start), parse_datetime (some iv.stop) with
      | some s, some e => ⟨100, {fmtYMDHM s ++ " - " ++ fmtHM e}⟩
      | _, _ => ⟨0, ∅⟩  -- unreachable: `containing` only selects parseable pairs
    | none =>
      match minDistLoop impact_time teccm_live_intervals with
      | some min_distance_minutes =>
        let max_minutes := decay_hours * 60
        let score : ℚ :=
          if min_distance_minutes = 0 then 100
          else if min_distance_minutes ≥ max_minutes then 0
          else 100 * (1 - sq (min_distance_minutes / max_minutes))
        ⟨round1 score, ∅⟩
      | none =>
        -- 2. planned window
        let planned_start := parse_datetime teccm_planned_start
        let planned_end := parse_datetime teccm_planned_end
        match planned_start, planned_end with
        | some ps, some pe =>
          if ps.le impact_time ∧ impact_time.le pe then ⟨90, ∅⟩
          else if impact_time.lt ps then ⟨0, ∅⟩
          else
            let distance_minutes := ((impact_time.toSecs - pe.toSecs : ℤ) : ℚ) / 60
            let max_minutes := decay_hours * 60
            let score : ℚ :=
              if distance_minutes ≥ max_minutes then 0
              else 80 * (1 - sq (distance_minutes / max_minutes))
            ⟨round1 score, ∅⟩
        | some ps, none =>
          if impact_time.lt ps then ⟨0, ∅⟩
          else
            let distance_minutes := ((impact_time.toSecs - ps.toSecs : ℤ) : ℚ) / 60
            let max_minutes := decay_hours * 60
            let score : ℚ :=
              if distance_minutes ≥ max_minutes then 0
              else 70 * (1 - sq (distance_minutes / max_minutes))
            ⟨round1 score, ∅⟩
        | none, _ => ⟨0, ∅⟩

/-- The static `RELATED_SERVICE_GROUPS` table. -/
def RELATED_SERVICE_GROUPS : List (String × Finset String) :=
  [("ionos-cloud",
    (["ic-cis", "ic-sre", "ic-oss", "ic-pss", "ic-bss", "ic-ess",
      "cloud api", "dcd", "dcd api", "compute", "network", "block storage",
      "s3 object storage", "kubernetes", "sre", "iam", "keycloak",
      "iaas provisioning", "storage provisioning", "compute provisioning",
      "network provisioning", "compute platform", "network platform",
      "storage platform", "ic-s3 object storage"] : List String).toFinset),
   ("arsys",
    (["customer area", "control panel", "mail", "dns", "webhosting",
      "dedicated server", "cloud server", "ar-cis", "ar-pss", "ar-oss"] :
      List String).toFinset),
   ("strato",
    (["strato-mail", "strato-webmail", "strato-server", "str-cis", "str-pss"] :
      List String).toFinset)]

/-- First maximum of a list under an integer key (`max` in Python returns the
first maximal element). -/
def firstMaxBy {α : Type} (key : α → Nat) : List α → Option α
  | [] => none
  | x :: xs => some (xs.foldl (fun best g => if key best < key g then g else best) x)

/-- `calculate_service_score`. -/
def calculate_service_score (inc_services teccm_services : List String) :
    ScoreDetail :=
  let inc_set := pySetLS inc_services
  let teccm_set := pySetLS teccm_services
  if inc_set = ∅ ∨ teccm_set = ∅ then ⟨0, ∅⟩
  else
    let exactMatches := inc_set ∩ teccm_set
    if exactMatches ≠ ∅ then
      let jaccard := jaccard_similarity inc_set teccm_set
      ⟨round1 (50 + jaccard * 50), exactMatches⟩
    else
      let related_groups := RELATED_SERVICE_GROUPS.filter (fun g =>
        (inc_set ∩ g.2) ≠ ∅ ∧ (teccm_set ∩ g.2) ≠ ∅)
      match firstMaxBy
          (fun g => (inc_set ∩ g.2).card + (teccm_set ∩ g.2).card)
          related_groups with
      | some best_group =>
        ⟨round1 25, (inc_set ∩ best_group.2) ∪ (teccm_set ∩ best_group.2)⟩
      | none => ⟨0, ∅⟩

/-- `calculate_infra_score`. -/
def calculate_infra_score (inc_hosts inc_technologies teccm_hosts
    teccm_technologies : List String) : ScoreDetail :=
  let inc_hosts_set := pySetLS inc_hosts
  let teccm_hosts_set := pySetLS teccm_hosts
  let host_matches := inc_hosts_set ∩ teccm_hosts_set
  let inc_tech_set := pySetLS inc_technologies
  let teccm_tech_set := pySetLS teccm_technologies
  let tech_matches := inc_tech_set ∩ teccm_tech_set
  let host_score : ℚ :=
    if inc_hosts_set ≠ ∅ ∧ teccm_hosts_set ≠ ∅ then
      (if host_matches ≠ ∅ then 100 else 0)
    else 0
  let tech_score : ℚ :=
    if inc_tech_set ≠ ∅ ∧ teccm_tech_set ≠ ∅ then
      (if tech_matches ≠ ∅ then
        50 + jaccard_similarity inc_tech_set teccm_tech_set * 50
      else 0)
    else 0
  let final_score := host_score * (6 / 10) + tech_score * (4 / 10)
  ⟨round1 final_score, host_matches ∪ tech_matches⟩

/-- The team block of `calculate_org_score`: +50 for equal teams (logging the
incident's original-case team string), +25 when one contains the other;
`None` or empty teams contribute nothing. -/
def orgTeamPart (inc_team teccm_team : Option String) : ℚ × Finset String :=
  match inc_team, teccm_team with
  | some it, some tt =>
    if it ≠ "" ∧ tt ≠ "" then
      let itl := strStrip (strLower it)
      let ttl := strStrip (strLower tt)
      if itl = ttl then (50, {it})
      else if strIn itl ttl || strIn ttl itl then (25, ∅)
      else (0, ∅)
    else (0, ∅)
  | _, _ => (0, ∅)

/-- `calculate_org_score`. -/
def calculate_org_score (inc_people : List String) (inc_team : Option String)
    (teccm_people : List String) (teccm_team : Option String) : ScoreDetail :=
  let teamPart := orgTeamPart inc_team teccm_team
  let inc_people_set := pySetLS inc_people
  let teccm_people_set := pySetLS teccm_people
  let people_matches := inc_people_set ∩ teccm_people_set
  let peopleScore : ℚ :=
    if people_matches ≠ ∅ then min 50 ((people_matches.card : ℚ) * 15) else 0
  let score := teamPart.1 + peopleScore
  ⟨min 100 (round1 score), teamPart.2 ∪ people_matches⟩

/-- Default weights (`DEFAULT_WEIGHTS`). -/
structure Weights where
  time : ℚ
  service : ℚ
  infra : ℚ
  org : ℚ
deriving DecidableEq, Repr

structure Thresholds where
  time_decay_hours : ℚ
  min_score_to_show : ℚ
deriving DecidableEq, Repr

structure Penalties where
  no_live_intervals : ℚ
  no_hosts : ℚ
  no_services : ℚ
  generic_change : ℚ
  long_duration_week : ℚ
  long_duration_month : ℚ
  long_duration_quarter : ℚ
deriving DecidableEq, Repr

structure Bonuses where
  proximity_exact : ℚ
  proximity_1h : ℚ
  proximity_2h : ℚ
  proximity_4h : ℚ
deriving DecidableEq, Repr

def DEFAULT_WEIGHTS : Weights := ⟨35/100, 30/100, 20/100, 15/100⟩

def DEFAULT_THRESHOLDS : Thresholds := ⟨4, 0⟩

def DEFAULT_PENALTIES : Penalties :=
  ⟨8/10, 95/100, 90/100, 5/10, 8/10, 6/10, 4/10⟩

def DEFAULT_BONUSES : Bonuses := ⟨15/10, 13/10, 12/10, 11/10⟩

def GENERIC_CHANGE_THRESHOLD : Nat := 10

/-- `DURATION_THRESHOLDS`: week/month/quarter in hours. -/
def DURATION_WEEK : ℚ := 168

def DURATION_MONTH : ℚ := 720

def DURATION_QUARTER : ℚ := 2160

/-- `PROXIMITY_THRESHOLDS`: exact/1h/2h/4h in hours. -/
def PROXIMITY_EXACT : ℚ := 1/2

def PROXIMITY_1H : ℚ := 1

def PROXIMITY_2H : ℚ := 2

def PROXIMITY_4H : ℚ := 4

/-- The `times` block of a normalized ticket, as the scorer reads it. -/
structure ScTimes where
  created_at : Option String
  first_impact_time : Option String
  planned_start : Option String
  planned_end : Option String
  live_intervals : List Interval
deriving DecidableEq

structure ScEntities where
  services : List String
  hosts : List String
  technologies : List String
deriving DecidableEq

structure ScOrganization where
  team : Option String
  people_involved : List String
deriving DecidableEq

/-- A normalized ticket as consumed by the scorer. -/
structure ScTicket where
  issue_key : String
  ticket_type : String
  summary : String
  times : ScTimes
  entities : ScEntities
  organization : ScOrganization
deriving DecidableEq

/-- `TECCMScore`.  The penalty/bonus log entries are modelled by their tag
names (the source interpolates the multiplier into a diagnostic string). -/
structure TECCMScore where
  issue_key : String
  summary : String
  final_score : ℚ
  time_score : ScoreDetail
  service_score : ScoreDetail
  infra_score : ScoreDetail
  org_score : ScoreDetail
  penalties_applied : List String
  bonuses_applied : List String
  teccm_data : ScTicket
deriving DecidableEq

/-- `score_teccm`: full scoring of one candidate against the incident. -/
def score_teccm (sq : ℚ → ℚ) (inc teccm : ScTicket) (weights : Weights)
    (thresholds : Thresholds) (penalties : Penalties) (bonuses : Bonuses) :
    TECCMScore :=
  let time_score := calculate_time_score sq
    inc.times.first_impact_time inc.times.created_at
    teccm.times.live_intervals teccm.times.planned_start teccm.times.planned_end
    thresholds.time_decay_hours
  let service_score :=
    calculate_service_score inc.entities.services teccm.entities.services
  let infra_score := calculate_infra_score
    inc.entities.hosts inc.entities.technologies
    teccm.entities.hosts teccm.entities.technologies
  let org_score := calculate_org_score
    inc.organization.people_involved inc.organization.team
    teccm.organization.people_involved teccm.organization.team
  let base : ℚ :=
    weights.time * time_score.score + weights.service * service_score.score +
    weights.infra * infra_score.score + weights.org * org_score.score
  -- penalties, in source order
  let s1 : ℚ × List String :=
    if teccm.times.live_intervals = [] then
      (base * penalties.no_live_intervals, ["no_live_intervals"])
    else (base, [])
  let s2 : ℚ × List String :=
    if teccm.entities.hosts = [] then
      (s1.1 * penalties.no_hosts, s1.2 ++ ["no_hosts"])
    else s1
  let s3 : ℚ × List String :=
    if teccm.entities.services = [] then
      (s2.1 * penalties.no_services, s2.2 ++ ["no_services"])
    else s2
  let s4 : ℚ × List String :=
    if GENERIC_CHANGE_THRESHOLD < teccm.entities.services.length then
      (s3.1 * penalties.generic_change, s3.2 ++ ["generic_change"])
    else s3
  let planned_start := parse_datetime teccm.times.planned_start
  let planned_end := parse_datetime teccm.times.planned_end
  let strong_match := 80 < service_score.score + infra_score.score
  let s5 : ℚ × List String :=
    match planned_start, planned_end with
    | some ps, some pe =>
      if ¬ strong_match then
        let duration_hours := ((pe.toSecs - ps.toSecs : ℤ) : ℚ) / 3600
        if DURATION_QUARTER < duration_hours then
          (s4.1 * penalties.long_duration_quarter, s4.2 ++ ["long_duration_quarter"])
        else if DURATION_MONTH < duration_hours then
          (s4.1 * penalties.long_duration_month, s4.2 ++ ["long_duration_month"])
        else if DURATION_WEEK < duration_hours then
          (s4.1 * penalties.long_duration_week, s4.2 ++ ["long_duration_week"])
        else s4
      else s4
    | _, _ => s4
  -- proximity bonus (at most one)
  let inc_time := (parse_datetime inc.times.first_impact_time).orElse (fun _ =>
    (parse_datetime inc.times.planned_start).orElse (fun _ =>
      parse_datetime inc.times.created_at))
  let teccm_start := parse_datetime teccm.times.planned_start
  let s6 : ℚ × List String :=
    match inc_time, teccm_start with
    | some it, some ts =>
      let diff_hours : ℚ := |((it.toSecs - ts.toSecs : ℤ) : ℚ)| / 3600
      if diff_hours ≤ PROXIMITY_EXACT then
        (s5.1 * bonuses.proximity_exact, ["proximity_exact"])
      else if diff_hours ≤ PROXIMITY_1H then
        (s5.1 * bonuses.proximity_1h, ["proximity_1h"])
      else if diff_hours ≤ PROXIMITY_2H then
        (s5.1 * bonuses.proximity_2h, ["proximity_2h"])
      else if diff_hours ≤ PROXIMITY_4H then
        (s5.1 * bonuses.proximity_4h, ["proximity_4h"])
      else (s5.1, [])
    | _, _ => (s5.1, [])
  ⟨teccm.issue_key, teccm.summary, round1 s6.1,
   time_score, service_score, infra_score, org_score, s5.2, s6.2, teccm⟩

/-! #### High-level ranking API -/

structure ExtractionData where
  tickets : List ScTicket
deriving DecidableEq

/-- The ways `calculate_ranking` raises: float division by zero in weight
normalization, or a `ValueError` for a missing incident / empty change set. -/
inductive RankingError where
  | zeroDivision
  | noIncidents
  | noChanges
deriving DecidableEq

structure IncidentInfo where
  issue_key : String
  summary : String
  first_impact_time : Option String
  created_at : Option String
  services : List String
  hosts : List String
  technologies : List String
deriving DecidableEq

/-- The analysis block (the wall-clock `scored_at` diagnostic is not
modelled). -/
structure AnalysisInfo where
  teccm_analyzed : Nat
  teccm_in_ranking : Nat
  weights : Weights
  thresholds : Thresholds
  penalties : Penalties
  bonuses : Bonuses
deriving DecidableEq

structure RankingResult where
  incident : IncidentInfo
  analysis : AnalysisInfo
  ranking : List (Nat × TECCMScore)
deriving DecidableEq

/-- The weight-normalization comprehension of `calculate_ranking`:
every weight is divided by the weight sum. -/
def normalizeWeights (w : Weights) : Weights :=
  let total_weight := w.time + w.service + w.infra + w.org
  ⟨w.time / total_weight, w.service / total_weight,
   w.infra / total_weight, w.org / total_weight⟩

/-- `calculate_ranking`: normalize weights, score every CHANGE ticket against
the first INCIDENT ticket, filter by `min_score`, sort by final score
descending (Python `sorted` is stable: ties keep the order in which the
candidates were supplied; `insertionSort` with this non-strict relation is
the same stable sort), then rank from 1. -/
def calculate_ranking (sq : ℚ → ℚ) (extraction_data : ExtractionData)
    (weights : Weights) (thresholds : Thresholds) (penalties : Penalties)
    (bonuses : Bonuses) (min_score : ℚ) : Except RankingError RankingResult :=
  let total_weight := weights.time + weights.service + weights.infra + weights.org
  if total_weight = 0 then .error .zeroDivision
  else
    let w := normalizeWeights weights
    let tickets := extraction_data.tickets
    let incidents := tickets.filter (fun t => t.ticket_type = "INCIDENT")
    let changes := tickets.filter (fun t => t.ticket_type = "CHANGE")
    match incidents with
    | [] => .error .noIncidents
    | inc :: _ =>
      if changes = [] then .error .noChanges
      else
        let scores := (changes.map (fun teccm =>
          score_teccm sq inc teccm w thresholds penalties bonuses)).filter
          (fun s => min_score ≤ s.final_score)
        let ranking :=
          List.insertionSort (fun a b => b.final_score ≤ a.final_score) scores
        .ok ⟨⟨inc.issue_key, inc.summary, inc.times.first_impact_time,
              inc.times.created_at, inc.entities.services, inc.entities.hosts,
              inc.entities.technologies⟩,
             ⟨changes.length, ranking.length, w, thresholds, penalties, bonuses⟩,
             ranking.enumFrom 1⟩

/-! ### Normalizer (services/extractor.py)

Python `set` objects are modelled as insertion-ordered duplicate-free lists:
`sinsert` adds an element only when absent.  CPython's set iteration order is
unspecified (string hashing is randomized per process), so any enumeration is
a faithful model; all claims about these outputs are order-independent. -/

/-- `set.add`: append if not already present. -/
def sinsert (s : String) (l : List String) : List String :=
  if s ∈ l then l else l ++ [s]

/-- `set(l)`: deduplicate, keeping first occurrences. -/
def pySet (l : List String) : List String :=
  l.foldl (fun acc s => sinsert s acc) []

/-- Python `\w`: ASCII letters, digits and underscore. -/
def isWordChar (c : Char) : Bool := c.isAlphanum || c == '_'

/-- Whole-word search `re.search(rf'\b{tok}\b', text)` for a token that starts
and ends with word characters (every vocabulary token does): an occurrence
whose neighbours are absent or non-word. `prev` says whether the previous
character was a word character. -/
def wordSearchAux (tok : List Char) (prev : Bool) : List Char → Bool
  | [] => false
  | c :: rest =>
    (!prev && tok.isPrefixOf (c :: rest) &&
      (match (c :: rest).drop tok.length with
       | [] => true
       | d :: _ => !isWordChar d)) ||
    wordSearchAux tok (isWordChar c) rest

def wordSearch (tok : String) (text : String) : Bool :=
  wordSearchAux tok.data false text.data

/-- The fixed technology vocabulary (`TECHNOLOGIES`). -/
def TECHNOLOGIES : List String :=
  ["opensearch", "kibana", "elasticsearch", "logstash", "fluentd",
   "apache", "nginx", "php", "python", "java", "nodejs", "tomcat", "jboss",
   "wildfly",
   "mysql", "postgresql", "mariadb", "mongodb", "redis", "cassandra", "ceph",
   "docker", "kubernetes", "k8s", "proxmox", "vmware", "vcenter", "esxi",
   "openstack",
   "jenkins", "ansible", "terraform", "gitlab", "github", "bitbucket", "git",
   "rundeck", "salt",
   "imperva", "cloudflare", "akamai", "waf",
   "kafka", "rabbitmq", "activemq",
   "grafana", "prometheus", "zabbix", "nagios", "datadog",
   "haproxy", "keepalived", "lvs", "varnish",
   "memcached",
   "aws", "azure", "gcp",
   "s3", "cloudian", "hyperstore", "netbackup", "nfs",
   "dovecot", "postfix", "roundcube", "exim",
   "qemu", "kvm", "libvirt", "hyper-v", "virtuozzo",
   "debian", "ubuntu", "centos", "rhel",
   "waas", "dcd", "clipp", "ngcs", "dave",
   "keycloak", "iam", "oauth", "ldap", "saml", "openid"]

/-- `extract_technologies`: vocabulary tokens occurring as whole words in the
lower-cased text. -/
def extract_technologies (text : String) : List String :=
  if text = "" then []
  else
    let text_lower := strLower text
    pySet (TECHNOLOGIES.filter (fun tech => wordSearch tech text_lower))

/-- `SERVICE_SYNONYMS`: canonical service name with its aliases. -/
def SERVICE_SYNONYMS : List (String × List String) :=
  [("customer area", ["adc", "area de clientes", "customer system",
                      "arsys customer panel", "área de clientes"]),
   ("control panel", ["pdc", "panel de control", "control panels"]),
   ("s3 object storage", ["s3", "object storage", "ic-s3", "cloudian",
                          "hyperstore"]),
   ("block storage", ["ic-block storage", "block storage"]),
   ("compute", ["ic-compute", "compute platform", "compute provisioning"]),
   ("network", ["ic-network", "network platform", "network provisioning"]),
   ("mail", ["email", "e-mail", "mail platform", "dovecot", "postfix"]),
   ("dns", ["domain", "dns platform"]),
   ("dedicated server", ["dedicated", "bare metal", "physical server"]),
   ("cloud server", ["ngcs", "vps", "v-server", "cloud nx"]),
   ("webhosting", ["shared hosting", "sharedhosting", "web hosting"]),
   ("kubernetes", ["k8s", "container registry", "ic-kubernetes", "keycloak"])]

/-- Bracket tags `[...]` found by `re.findall` with a non-empty, `]`-free
capture; scanning restarts after each full match. -/
def findTags (fuel : Nat) (cs : List Char) : List String :=
  match fuel, cs with
  | 0, _ => []
  | _, [] => []
  | f + 1, c :: rest =>
    if c = '[' then
      let run := rest.takeWhile (fun d => d ≠ ']')
      match rest.drop run.length with
      | ']' :: tail =>
        if run = [] then findTags f rest else ⟨run⟩ :: findTags f tail
      | _ => findTags f rest
    else findTags f rest

/-- `is_valid_service_tag`. -/
def is_valid_service_tag (tag : String) : Bool :=
  let t := strStrip tag
  let cs := t.data
  if t.startsWith "~" then false
  else if (match cs with
    | a :: b :: s1 :: c :: d :: s2 :: e :: f :: g :: h :: _ =>
      [a, b, c, d, e, f, g, h].all Char.isDigit && s1 = '/' && s2 = '/'
    | _ => false) then false
  else if t.startsWith "http" || strIn ".com" t || strIn ".org" t then false
  else if t.startsWith "!" || t.endsWith "!" then false
  else if cs.length < 2 then false
  else
    let u := cs.filter (fun c => c ≠ ' ' && c ≠ ':' && c ≠ ',')
    if u ≠ [] && u.all Char.isDigit then false
    else true

/-- Tags excluded from service matching (`IGNORE_TAGS`). -/
def IGNORE_TAGS : List String :=
  ["ai", "dev", "smb", "urgent", "qa", "prod", "pre", "test",
   "wip", "todo", "done", "blocked", "review",
   "minor", "major", "critical", "blocker",
   "bug", "feature", "task", "story", "epic"]

/-- `.replace('_', ' ').strip()` applied to a captured group. -/
def buTransform (r : List Char) : String :=
  strStrip ⟨r.map (fun c => if c = '_' then ' ' else c)⟩

/-- The brand markers of `parse_business_unit`'s ordered pattern list
(`AR_`, `IC-`, ..., with `cronon[- ]`-style alternates expanded). -/
def BU_PREFIXES : List String :=
  ["ar_", "fh_", "ic-", "ionos-", "strato-", "home.pl-",
   "cronon-", "cronon ", "fasthosts-", "fasthosts ",
   "world4you-", "world4you ", "internetx-", "internetx ",
   "we22-", "we22 ", "udag-", "udag "]

/-- First brand-marker rule matching the lower-cased BU: the captured `(.+)`
remainder must be non-empty and newline-free. -/
def buPrefixMatch (bl : List Char) : Option String :=
  BU_PREFIXES.findSome? (fun p =>
    if p.data.isPrefixOf bl && bl.drop p.data.length ≠ [] &&
        (bl.drop p.data.length).all (fun c => c ≠ '\n') then
      some (buTransform (bl.drop p.data.length))
    else none)

/-- The acronym group `[A-Za-z]{2,10}(?:-[A-Za-z]{2,10})?`. -/
def acrOK (acr : String) : Bool :=
  let parts := acr.splitOn "-"
  (parts.length = 1 || parts.length = 2) &&
  parts.all (fun p => 2 ≤ p.data.length && p.data.length ≤ 10 &&
    p.data.all Char.isAlpha)

/-- The parenthesized-acronym rule `^(.+?)\s*\(ACR\)$` (capture group 2). -/
def buParenMatch (bl : List Char) : Option String :=
  match bl.reverse with
  | ')' :: revRest =>
    let acrRev := revRest.takeWhile (fun c => c ≠ '(')
    match revRest.drop acrRev.length with
    | '(' :: revPre =>
      let preT := revPre.dropWhile isPySpace
      if acrOK ⟨acrRev.reverse⟩ && preT ≠ [] && preT.all (fun c => c ≠ '\n') then
        some (buTransform acrRev.reverse)
      else none
    | _ => none
  | _ => none

def GENERIC_SUFFIXES : List String :=
  ["business support systems", "customer interaction systems",
   "employee support systems", "operations support systems",
   "product service systems", "external supplier systems",
   "outsourced service systems", "corporate management systems",
   "-bss", "-cis", "-ess", "-oss", "-pss", "-extss", "-outss", "-cms"]

/-- `re.sub(r'\s*\([^)]*\)\s*$', '', ...)`: drop one trailing parenthesized
group (with surrounding whitespace) if present. -/
def removeTrailingParen (cs : List Char) : List Char :=
  match cs.reverse.dropWhile isPySpace with
  | ')' :: rest2 =>
    let inner := rest2.takeWhile (fun c => c ≠ '(' && c ≠ ')')
    match rest2.drop inner.length with
    | '(' :: revPre => (revPre.dropWhile isPySpace).reverse
    | _ => cs
  | _ => cs

/-- The generic-suffix fallback of `parse_business_unit`: strip the first
matching suffix, then a trailing parenthesized group. -/
def buSuffixResult (bu_lower : String) : String :=
  match GENERIC_SUFFIXES.find? (fun suf => bu_lower.endsWith suf) with
  | some suf =>
    strStrip ⟨removeTrailingParen (strStrip
      ⟨bu_lower.data.take (bu_lower.data.length - suf.data.length)⟩).data⟩
  | none => bu_lower

/-- The hierarchical-path branch: parse the last `/`-segment recursively,
falling back to its lower-cased text. -/
def buHierStep (rec : String → Option String) (bu : String) : Option String :=
  match rec (strStrip ((bu.splitOn "/").getLastD "")) with
  | some parsed =>
    if parsed ≠ "" then some parsed
    else some (strLower (strStrip ((bu.splitOn "/").getLastD "")))
  | none => some (strLower (strStrip ((bu.splitOn "/").getLastD "")))

/-- The final fallback, split over the already-computed suffix-stripped
`result0`. -/
def buFinalWith (bu result0 : String) : Option String :=
  if result0 ≠ "" ∧ 2 ≤ result0.data.length then some result0
  else if 2 ≤ bu.data.length ∧ bu.data.length ≤ 50 then some (strLower bu)
  else none

/-- The final fallback: the suffix-stripped result when it has at least two
characters, else the whole lower-cased BU when its length is in [2, 50]. -/
def buFinal (bu : String) : Option String :=
  buFinalWith bu (buSuffixResult (strLower bu))

/-- `parse_business_unit`, with fuel for the hierarchical-path recursion (the
recursive argument is strictly shorter, so `length + 1` fuel never runs
out). -/
def parseBU : Nat → String → Option String
  | 0, _ => none
  | fuel + 1, bu0 =>
    if bu0 = "" then none
    else
      match buPrefixMatch (strLower (strStrip bu0)).data with
      | some s => some s
      | none =>
        match buParenMatch (strLower (strStrip bu0)).data with
        | some s => some s
        | none =>
          if (strStrip bu0).data.contains '/' then
            buHierStep (parseBU fuel) (strStrip bu0)
          else buFinal (strStrip bu0)

def parse_business_unit (bu : String) : Option String :=
  parseBU (bu.length + 1) bu

/-- `extract_services`: synonym hits over the text pool, filtered bracket
tags, and parsed business units. -/
def extract_services (text : String) (business_units : List String) :
    List String :=
  let step1 : List String :=
    if text ≠ "" then
      let text_lower := strLower text
      let s1 := SERVICE_SYNONYMS.foldl (fun acc cs =>
        let acc1 := if strIn cs.1 text_lower then sinsert cs.1 acc else acc
        cs.2.foldl (fun a al => if strIn al text_lower then sinsert cs.1 a else a)
          acc1) []
      let tags := findTags (text.data.length + 1) text.data
      tags.foldl (fun acc tag =>
        if ¬ is_valid_service_tag tag then acc
        else if strStrip (strLower tag) ∈ IGNORE_TAGS then acc
        else
          match SERVICE_SYNONYMS.find? (fun cs =>
            strIn cs.1 (strStrip (strLower tag)) ||
            cs.2.any (fun a => strIn a (strStrip (strLower tag)))) with
          | some cs => sinsert cs.1 acc
          | none => acc) s1
    else []
  business_units.foldl (fun acc bu =>
    match parse_business_unit bu with
    | some service => if service ≠ "" then sinsert service acc else acc
    | none => acc) step1

/-- The five entries of `HOST_PATTERNS`, by shape. -/
inductive HostPat where
  | ionos
  | prefixNum
  | classic
  | longPrefixNum
  | longRun
deriving DecidableEq, Repr

def HOST_PATTERNS : List HostPat :=
  [.ionos, .prefixNum, .classic, .longPrefixNum, .longRun]

def HOST_BLACKLIST : List String :=
  ["https", "http", "image", "browse", "version", "update", "release",
   "node12", "node10", "node11", "node-33", "node-91", "node-601", "node-604",
   "node-901",
   "utf8", "utf16", "iso8859", "win1252",
   "amd64", "x86", "arm64",
   "eu-south-2", "eu-central-1", "eu-central-2", "us-east-1", "us-west-2",
   "region", "regions",
   "image-2025", "image-2024", "image-2023", "screenshot-1", "screenshot-2"]

def isHexDigit (c : Char) : Bool := c.isDigit || ('a' ≤ c && c ≤ 'f')

/-- `^v?\d+(\.\d+)*$`: version-shaped strings. -/
def versionLike (cs : List Char) : Bool :=
  let core := match cs with
    | 'v' :: rest => rest
    | rest => rest
  let parts := (⟨core⟩ : String).splitOn "."
  parts.all (fun p => p ≠ "" && p.data.all Char.isDigit)

def isLowerAlpha (c : Char) : Bool := 'a' ≤ c && c ≤ 'z'

/-- `is_valid_host`: the false-positive filter applied to each raw regex
match. -/
def is_valid_host (hostname : String) : Bool :=
  let h := strStrip (strLower hostname)
  let cs := h.data
  if h ∈ HOST_BLACKLIST then false
  else if 4 ≤ cs.length && cs.length ≤ 8 && cs.all isHexDigit then false
  else if 32 ≤ cs.length && cs.all isHexDigit then false
  else if (cs.filter (fun c => c ≠ '-')) ≠ [] &&
      (cs.filter (fun c => c ≠ '-')).all Char.isDigit then false
  else if versionLike cs then false
  else if ¬ cs.any Char.isAlpha then false
  else if h.startsWith "node-" && (cs.drop 5) ≠ [] &&
      (cs.drop 5).all Char.isDigit then false
  else if (match h.splitOn "-" with
    | [p1, p2, p3] =>
      (p1 ∈ ["eu", "us", "ap", "sa", "af", "me"]) &&
      (p2 ∈ ["north", "south", "east", "west", "central"]) &&
      p3 ≠ "" && p3.data.all Char.isDigit
    | _ => false) then false
  else if (match h.splitOn "-" with
    | [p1, p2] =>
      2 ≤ p1.data.length && p1.data.length ≤ 6 && p1.data.all isLowerAlpha &&
      1 ≤ p2.data.length && p2.data.length ≤ 5 && p2.data.all Char.isDigit &&
      ¬ h.startsWith "s3-node"
    | _ => false) then false
  else if ["image", "screenshot", "img", "pic", "photo"].any
      (fun p => h.startsWith (p ++ "-")) then false
  else true

/-- `extract_hosts`, parametrized by the regex engine: `findall pat text`
stands for `HOST_PATTERNS[pat].findall(text)` on the lower-cased text pool.
The union, validation and final dedup mirror the source. -/
def extract_hosts (findall : HostPat → String → List String) (text : String) :
    List String :=
  if text = "" then []
  else
    let text_lower := strLower text
    let all_matches := HOST_PATTERNS.foldl (fun acc p =>
      (findall p text_lower).foldl (fun a m => sinsert m a) acc) []
    let valid_hosts := all_matches.filter (fun h => is_valid_host h)
    pySet valid_hosts

/-- `strftime "%Y-%m-%dT%H:%M:%SZ"`. -/
def fmtISOZ (t : DT) : String :=
  pad4 t.year ++ "-" ++ pad2 t.month ++ "-" ++ pad2 t.day ++ "T" ++
  pad2 t.hour ++ ":" ++ pad2 t.minute ++ ":" ++ pad2 t.second ++ "Z"

/-- `parse_interval_date`: `strptime "%d/%m/%Y %H:%M"` then ISO formatting;
`None` on any parse error.  (The `reference_date` fallback of the source is
dead code: the caller always supplies a date.) -/
def parse_interval_date (date_str time_str : String) : Option String :=
  match date_str.data, time_str.data with
  | [d1, d2, s1, m1, m2, s2, y1, y2, y3, y4], [h1, h2, c1, n1, n2] =>
    if [d1, d2, m1, m2, y1, y2, y3, y4, h1, h2, n1, n2].all Char.isDigit
        && s1 == '/' && s2 == '/' && c1 == ':' then
      let t : DT := ⟨fourDig y1 y2 y3 y4, twoDig m1 m2, twoDig d1 d2,
                     twoDig h1 h2, twoDig n1 n2, 0⟩
      if t.valid then some (fmtISOZ t) else none
    else none
  | _, _ => none

/-- Captured groups of one `INTERVAL_PATTERN` match: start date, start time,
end date (empty string when the optional group is absent), end time. -/
abbrev IntervalGroups := String × String × String × String

def pDate (cs : List Char) : Option (String × List Char) :=
  match cs with
  | a :: b :: s1 :: c :: d :: s2 :: e :: f :: g :: h :: rest =>
    if [a, b, c, d, e, f, g, h].all Char.isDigit && s1 == '/' && s2 == '/' then
      some (⟨[a, b, s1, c, d, s2, e, f, g, h]⟩, rest)
    else none
  | _ => none

def pTime (cs : List Char) : Option (String × List Char) :=
  match cs with
  | a :: b :: c1 :: c :: d :: rest =>
    if [a, b, c, d].all Char.isDigit && c1 == ':' then
      some (⟨[a, b, c1, c, d]⟩, rest)
    else none
  | _ => none

/-- `\s+`: at least one whitespace character, maximal munch. -/
def pWs1 (cs : List Char) : Option (List Char) :=
  let ws := cs.takeWhile isPySpace
  if ws = [] then none else some (cs.drop ws.length)

/-- Try to match `INTERVAL_PATTERN` at the current position, returning the
captured groups and the remainder after the match.  The optional
`(?:(\d{2}/\d{2}/\d{4})\s+)?` group is tried greedily and abandoned if the
rest of the pattern cannot complete, as the backtracking engine does. -/
def matchIntervalAt (cs : List Char) : Option (IntervalGroups × List Char) :=
  match cs with
  | '[' :: r1 =>
    match pDate r1 with
    | none => none
    | some (d1, r2) =>
      match pWs1 r2 with
      | none => none
      | some r3 =>
        match pTime r3 with
        | none => none
        | some (t1, r4) =>
          match r4 with
          | ',' :: r5 =>
            let r6 := r5.dropWhile isPySpace
            let fallback : Option (IntervalGroups × List Char) :=
              match pTime r6 with
              | some (t2, r9) =>
                match r9 with
                | ']' :: r10 => some ((d1, t1, "", t2), r10)
                | _ => none
              | none => none
            match pDate r6 with
            | some (d2, r7) =>
              match pWs1 r7 with
              | some r8 =>
                match pTime r8 with
                | some (t2, r9) =>
                  match r9 with
                  | ']' :: r10 => some ((d1, t1, d2, t2), r10)
                  | _ => fallback
                | none => fallback
              | none => fallback
            | none => fallback
          | _ => none
  | _ => none

/-- `INTERVAL_PATTERN.findall`: leftmost matches, scanning resumes after each
match; fuel is the text length (every step consumes at least one
character). -/
def findIntervals (fuel : Nat) (cs : List Char) : List IntervalGroups :=
  match fuel, cs with
  | 0, _ => []
  | _, [] => []
  | f + 1, c :: rest =>
    match matchIntervalAt (c :: rest) with
    | some (g, r) => g :: findIntervals f r
    | none => findIntervals f rest

/-- A comment record as shaped by `extract_ticket` (`author` defaulted to
`Unknown`, `body` to the empty string). -/
structure CommentRec where
  id : String
  author : String
  created : Option String
  body : String
deriving DecidableEq, Repr

/-- `extract_live_intervals`: every pattern match across all comment bodies;
a missing end date defaults to the start date; pairs with an unparseable
endpoint are dropped. -/
def extract_live_intervals (comments : List CommentRec) : List Interval :=
  comments.foldl (fun acc comment =>
    let body := comment.body
    if body = "" then acc
    else
      (findIntervals (body.data.length + 1) body.data).foldl (fun a g =>
        let ed := if g.2.2.1 = "" then g.1 else g.2.2.1
        match parse_interval_date g.1 g.2.1, parse_interval_date ed g.2.2.2 with
        | some start_iso, some end_iso => a ++ [⟨start_iso, end_iso⟩]
        | _, _ => a) acc) []

structure TimelineEntry where
  timestamp : String
  user : String
  action : String
deriving DecidableEq, Repr

/-- `strptime "%Y%m%d %H:%M"` on the two timeline captures. -/
def parseYmd8HM (d8 hm : String) : Option DT :=
  match d8.data, hm.data with
  | [y1, y2, y3, y4, m1, m2, d1, d2], [h1, h2, c1, n1, n2] =>
    if [y1, y2, y3, y4, m1, m2, d1, d2, h1, h2, n1, n2].all Char.isDigit
        && c1 == ':' then
      let t : DT := ⟨fourDig y1 y2 y3 y4, twoDig m1 m2, twoDig d1 d2,
                     twoDig h1 h2, twoDig n1 n2, 0⟩
      if t.valid then some t else none
    else none
  | _, _ => none

/-- Match `TIMELINE_PATTERN` (`^(\d{8})\s+(\d{2}:\d{2})\s*-\s*(\w+):\s*(.+)$`)
against one line. -/
def matchTimelineLine (line : List Char) : Option (String × String × String × String) :=
  let d8 := line.takeWhile Char.isDigit
  if d8.length = 8 then
    match pWs1 (line.drop 8) with
    | none => none
    | some r1 =>
      match pTime r1 with
      | none => none
      | some (hm, r2) =>
        match r2.dropWhile isPySpace with
        | '-' :: r3 =>
          let r4 := r3.dropWhile isPySpace
          let w := r4.takeWhile isWordChar
          if w = [] then none
          else
            match r4.drop w.length with
            | ':' :: r5 =>
              let action := r5.dropWhile isPySpace
              if action = [] then none
              else some (⟨d8⟩, hm, ⟨w⟩, ⟨action⟩)
            | _ => none
        | _ => none
  else none

/-- `extract_timeline_entries`: the multiline pattern applied per line of the
description; entries whose timestamp fails `strptime` are skipped. -/
def extract_timeline_entries (description : String) : List TimelineEntry :=
  if description = "" then []
  else
    (description.splitOn "\n").foldl (fun acc line =>
      match matchTimelineLine line.data with
      | some g =>
        match parseYmd8HM g.1 g.2.1 with
        | some dt => acc ++ [⟨fmtISOZ dt, strLower g.2.2.1, strStrip g.2.2.2⟩]
        | none => acc
      | none => acc) []

/-- `extract_first_impact_time`: timestamp of the first timeline entry. -/
def extract_first_impact_time (_description : String)
    (timeline_entries : List TimelineEntry) : Option String :=
  timeline_entries.head?.map (fun e => e.timestamp)

/-- The `issue_data` dict assembled by `extract_ticket` for people
extraction. -/
structure IssueDataRec where
  assignee_name : Option String
  reporter_name : Option String
  tech_escalation : Option (List String)
  permitted_users : Option (List String)
deriving DecidableEq, Repr

/-- Python truthiness of an optional string. -/
def otruthy (o : Option String) : Bool :=
  match o with
  | some s => s ≠ ""
  | none => false

/-- `extract_people_involved`: assignee, reporter, comment authors (spaces
removed), timeline users.  The escalation/permitted-user loops look for
`item.get('name')` on dict items, but those custom-field values are lists of
plain strings, so they contribute nothing. -/
def extract_people_involved (issue_data : IssueDataRec)
    (comments : List CommentRec) (timeline_entries : List TimelineEntry) :
    List String :=
  let p0 : List String := []
  let p1 := match issue_data.assignee_name with
    | some name => if name ≠ "" then sinsert (strLower name) p0 else p0
    | none => p0
  let p2 := match issue_data.reporter_name with
    | some name => if name ≠ "" then sinsert (strLower name) p1 else p1
    | none => p1
  let p3 := comments.foldl (fun acc c =>
    if c.author ≠ "" then
      sinsert ⟨(strLower c.author).data.filter (fun ch => ch ≠ ' ')⟩ acc
    else acc) p2
  timeline_entries.foldl (fun acc e =>
    if e.user ≠ "" then sinsert (strLower e.user) acc else acc) p3

/-- `normalize_datetime`: re-format the first 19 characters as UTC ISO; on a
parse failure the input string is returned unchanged. -/
def normalize_datetime (dt_str : Option String) : Option String :=
  match dt_str with
  | none => none
  | some s =>
    if s = "" then none
    else
      match parseISO19 (s.data.take 19) with
      | some dt => some (fmtISOZ dt)
      | none => some s

/-- The raw Jira issue as seen through `safe_get`/`get_custom_field_value`
(the custom-field indirection already resolved to plain values;
`affected_business_units` after the `or []` / single-string-to-list
normalization). -/
structure RawIssue where
  key : String
  issuetype_name : String
  summary : Option String
  description : Option String
  created : Option String
  updated : Option String
  resolutiondate : Option String
  assignee_name : Option String
  reporter_name : Option String
  resolution_name : Option String
  labels : List String
  start_datetime : Option String
  end_datetime : Option String
  tech_escalation : Option (List String)
  permitted_users : Option (List String)
  responsible_entity : Option String
  cause : Option String
  effect : Option String
  customer_impact : Option String
  change_category : Option String
  environments : Option (List String)
  affected_business_units : List String
  causing_business_units : Option (List String)
  change_owner : Option String
  incident_owner : Option String
deriving DecidableEq, Repr

/-- A raw comment as returned by the tracker client. -/
structure RawComment where
  id : String
  author_displayName : Option String
  created : Option String
  body : Option String
deriving DecidableEq, Repr

structure TkTimes where
  created_at : Option String
  updated_at : Option String
  resolved_at : Option String
  first_impact_time : Option String
  planned_start : Option String
  planned_end : Option String
  live_intervals : List Interval
deriving DecidableEq, Repr

structure TkEntities where
  services : List String
  hosts : List String
  technologies : List String
deriving DecidableEq, Repr

structure TkOrganization where
  team : Option String
  assignee : Option String
  reporter : Option String
  owner : Option String
  people_involved : List String
deriving DecidableEq, Repr

structure TkClassification where
  cause : Option String
  effect : Option String
  environments : List String
  change_category : Option String
  customer_impact : Option String
  resolution : Option String
deriving DecidableEq, Repr

structure TkRawFields where
  labels : List String
  affected_business_units : List String
  causing_business_units : Option (List String)
deriving DecidableEq, Repr

/-- The `_extraction` metadata block. -/
structure TkExtraction where
  version : String
  extracted_at : String
  source : String
  warnings : List String
  timeline_entries_count : Nat
  comments_count : Nat
deriving DecidableEq, Repr

/-- A normalized Ticket, the output of `extract_ticket`. -/
structure Ticket where
  issue_key : String
  ticket_type : String
  summary : String
  times : TkTimes
  entities : TkEntities
  organization : TkOrganization
  classification : TkClassification
  raw_fields : TkRawFields
  extraction : TkExtraction
deriving DecidableEq, Repr

def VERSION : String := "1.1"

/-- `extract_ticket`, with the tracker fetch abstracted to its returned raw
data, the host regex engine as `findall`, and `datetime.utcnow()` as the
explicit `now` argument.  Everything else mirrors the source body. -/
def extract_ticket (findall : HostPat → String → List String) (raw : RawIssue)
    (rawComments : List RawComment) (now : String) : Ticket :=
  let issue_type := raw.issuetype_name
  let ticket_type :=
    if strIn "incident" (strLower issue_type) then "INCIDENT"
    else if strIn "change" (strLower issue_type) then "CHANGE"
    else strUpper issue_type
  let comments : List CommentRec := rawComments.map (fun c =>
    ⟨c.id, c.author_displayName.getD "Unknown", c.created, c.body.getD ""⟩)
  let summary := raw.summary.getD ""
  let description := raw.description.getD ""
  let comments_text := String.intercalate " " (comments.map (fun c => c.body))
  let full_text := summary ++ " " ++ description ++ " " ++ comments_text
  let timeline_entries := extract_timeline_entries description
  let affected_bu := raw.affected_business_units
  let live_intervals := extract_live_intervals comments
  let issue_data : IssueDataRec :=
    ⟨raw.assignee_name, raw.reporter_name, raw.tech_escalation,
     raw.permitted_users⟩
  let warnings :=
    if ticket_type = "CHANGE" ∧ live_intervals = [] then
      ["No live_intervals found in comments, using planned_start/end"]
    else []
  ⟨raw.key, ticket_type, summary,
   ⟨normalize_datetime raw.created, normalize_datetime raw.updated,
    normalize_datetime raw.resolutiondate,
    extract_first_impact_time description timeline_entries,
    normalize_datetime raw.start_datetime, normalize_datetime raw.end_datetime,
    live_intervals⟩,
   ⟨extract_services full_text affected_bu, extract_hosts findall full_text,
    extract_technologies full_text⟩,
   ⟨raw.responsible_entity, raw.assignee_name, raw.reporter_name,
    pyOr raw.change_owner raw.incident_owner,
    extract_people_involved issue_data comments timeline_entries⟩,
   ⟨raw.cause, raw.effect, raw.environments.getD [], raw.change_category,
    raw.customer_impact, raw.resolution_name⟩,
   ⟨raw.labels, affected_bu, raw.causing_business_units⟩,
   ⟨VERSION, now, "deterministic", warnings, timeline_entries.length,
    comments.length⟩⟩

/-! ### Candidate discovery (`search_teccm_in_window`) -/

/-- Smallest year whose first day is not after day `n`, by bounded upward
search from a lower bound (the loop body runs at most a handful of times for
real dates; the fuel is a safe upper bound). -/
def yearFromDays (fuel n y : Nat) : Nat :=
  match fuel with
  | 0 => y
  | f + 1 => if daysBeforeYear (y + 1) ≤ n then yearFromDays f n (y + 1) else y

/-- Month and day (1-based) from a 0-based day of year. -/
def monthFromDoy (y : Nat) (fuel m doy : Nat) : Nat × Nat :=
  match fuel with
  | 0 => (m, doy + 1)
  | f + 1 =>
    if doy < daysInMonth y m then (m, doy + 1)
    else monthFromDoy y f (m + 1) (doy - daysInMonth y m)

/-- Calendar date of day number `n` (inverse of `toDayNumber`). -/
def fromDayNumber (n : Nat) : Nat × Nat × Nat :=
  let y := yearFromDays (n + 1) n (n / 366 + 1)
  let md := monthFromDoy y 12 1 (n - daysBeforeYear y)
  (y, md.1, md.2)

/-- `datetime ± timedelta` in whole minutes; seconds are preserved.  `none`
models the `OverflowError` raised outside `datetime`'s year range. -/
def shiftMinutes (t : DT) (delta : ℤ) : Option DT :=
  let tm : ℤ := (toDayNumber t.year t.month t.day : ℤ) * 1440 +
    t.hour * 60 + t.minute + delta
  if tm < 0 then none
  else
    let m := tm.toNat
    let ymd := fromDayNumber (m / 1440)
    if ymd.1 ≤ 9999 then
      some ⟨ymd.1, ymd.2.1, ymd.2.2, (m % 1440) / 60, m % 60, t.second⟩
    else none

/-- `SearchOptions` after window parsing: windows in minutes. -/
structure SearchOptions where
  window_before : ℤ
  window_after : ℤ
  include_active : Bool
  include_no_end : Bool
  max_results : Nat
  extra_jql : String
  project : String
deriving DecidableEq, Repr

/-- Defaults: 48h before, 2h after, both optional queries on, 500 results,
project TECCM. -/
def defaultSearchOptions : SearchOptions :=
  ⟨48 * 60, 2 * 60, true, true, 500, "", "TECCM"⟩

def jqlWindowStr (project start_str end_str extra_filter : String) : String :=
  "project = " ++ project ++ " AND \"Start Date/Time\" >= \"" ++ start_str ++
  "\" AND \"Start Date/Time\" <= \"" ++ end_str ++ "\"" ++ extra_filter ++
  " ORDER BY \"Start Date/Time\" DESC"

def jqlActiveStr (project inc_str extra_filter : String) : String :=
  "project = " ++ project ++ " AND \"Start Date/Time\" <= \"" ++ inc_str ++
  "\" AND \"End Date/Time\" >= \"" ++ inc_str ++ "\"" ++ extra_filter ++
  " ORDER BY \"Start Date/Time\" DESC"

def jqlNoEndStr (project inc_str extra_filter : String) : String :=
  "project = " ++ project ++ " AND \"Start Date/Time\" <= \"" ++ inc_str ++
  "\" AND \"End Date/Time\" IS EMPTY" ++ extra_filter ++
  " ORDER BY \"Start Date/Time\" DESC"

/-- The tracker search primitive: JQL and `maxResults` to a key list, or the
raised exception's message. -/
abbrev SearchFn := String → Nat → Except String (List String)

instance {ε α : Type} [DecidableEq ε] [DecidableEq α] :
    DecidableEq (Except ε α) := fun x y =>
  match x, y with
  | .error a, .error b =>
    decidable_of_iff (a = b) ⟨fun h => by rw [h], fun h => by cases h; rfl⟩
  | .ok a, .ok b =>
    decidable_of_iff (a = b) ⟨fun h => by rw [h], fun h => by cases h; rfl⟩
  | .error _, .ok _ => isFalse (fun h => Except.noConfusion h)
  | .ok _, .error _ => isFalse (fun h => Except.noConfusion h)

/-- Query 3 (open-ended TECCMs), run with the keys accumulated so far; a
raised error aborts with the accumulator (the shared `except` path). -/
def searchNoEndStep (search : SearchFn) (options : SearchOptions)
    (inc_str extra_filter : String) (acc : List String) : List String :=
  if options.include_no_end then
    match search (jqlNoEndStr options.project inc_str extra_filter)
        options.max_results with
    | .error _ => acc
    | .ok no_end_keys => no_end_keys.foldl (fun a k => sinsert k a) acc
  else acc

/-- Query 2 (active TECCMs) followed by query 3. -/
def searchActiveStep (search : SearchFn) (options : SearchOptions)
    (inc_str extra_filter : String) (acc : List String) : List String :=
  if options.include_active then
    match search (jqlActiveStr options.project inc_str extra_filter)
        options.max_results with
    | .error _ => acc
    | .ok active_keys =>
      searchNoEndStep search options inc_str extra_filter
        (active_keys.foldl (fun a k => sinsert k a) acc)
  else searchNoEndStep search options inc_str extra_filter acc

/-- `search_teccm_in_window`: up to three queries inside one `try` block;
any raised error returns the keys accumulated so far (empty when the date
parse, the window arithmetic, or the first query fails). -/
def search_teccm_in_window (search : SearchFn) (inc_created : String)
    (options : SearchOptions) : List String :=
  match parseISO19 (inc_created.data.take 19) with
  | none => []
  | some inc_dt =>
    let inc_str := fmtYMDHM inc_dt
    let extra_filter :=
      if options.extra_jql ≠ "" then " " ++ options.extra_jql else ""
    match shiftMinutes inc_dt (-options.window_before),
        shiftMinutes inc_dt options.window_after with
    | some start_dt, some end_dt =>
      match search (jqlWindowStr options.project (fmtYMDHM start_dt)
          (fmtYMDHM end_dt) extra_filter) options.max_results with
      | .error _ => []
      | .ok window_keys =>
        searchActiveStep search options inc_str extra_filter
          (window_keys.foldl (fun a k => sinsert k a) [])
    | _, _ => []

/-! ### The `Weights` API model (models.py) -/

/-- The pydantic `Weights` model constraints: each field in `[0, 1]`
(`Field(ge=0, le=1)`); no constraint relates the fields to each other. -/
def Weights.validModel (w : Weights) : Prop :=
  0 ≤ w.time ∧ w.time ≤ 1 ∧ 0 ≤ w.service ∧ w.service ≤ 1 ∧
  0 ≤ w.infra ∧ w.infra ≤ 1 ∧ 0 ≤ w.org ∧ w.org ≤ 1

/-- The all-zero weight map, accepted field-by-field by the model. -/
def zeroWeights : Weights := ⟨0, 0, 0, 0⟩

/-! ### Concrete inputs used by the claim theorems -/

/-- Scenario 1 incident: impact 2025-07-22T12:20Z, one service, one host. -/
def scn1Inc : ScTicket :=
  ⟨"INC-1", "INCIDENT", "inc",
   ⟨none, some "2025-07-22T12:20:00Z", none, none, []⟩,
   ⟨["s3 object storage"], ["s3-node-91"], []⟩,
   ⟨none, []⟩⟩

/-- Scenario 1 candidate: the single live interval 12:00Z-13:00Z, same
service and host sets, no planned window. -/
def scn1Teccm : ScTicket :=
  ⟨"TECCM-1", "CHANGE", "chg",
   ⟨none, none, none, none, [⟨"2025-07-22T12:00:00Z", "2025-07-22T13:00:00Z"⟩]⟩,
   ⟨["s3 object storage"], ["s3-node-91"], []⟩,
   ⟨none, []⟩⟩

/-- The score record the code produces for scenario 1. -/
def scn1Val : TECCMScore :=
  ⟨"TECCM-1", "chg", 77, ⟨100, {"2025-07-22 12:00 - 13:00"}⟩,
   ⟨100, {"s3 object storage"}⟩, ⟨60, {"s3-node-91"}⟩, ⟨0, ∅⟩, [], [],
   scn1Teccm⟩

/-- A contentless incident for the tie-break example. -/
def tieInc : ScTicket :=
  ⟨"INC-9", "INCIDENT", "", ⟨none, none, none, none, []⟩, ⟨[], [], []⟩,
   ⟨none, []⟩⟩

/-- Tie-break candidates: identical content, keys supplied in descending
order. -/
def tieA : ScTicket :=
  ⟨"TECCM-2", "CHANGE", "", ⟨none, none, none, none, []⟩, ⟨[], [], []⟩,
   ⟨none, []⟩⟩

def tieB : ScTicket :=
  ⟨"TECCM-1", "CHANGE", "", ⟨none, none, none, none, []⟩, ⟨[], [], []⟩,
   ⟨none, []⟩⟩

/-- The score record produced for `tieA`: all sub-scores 0, the three
empty-entity penalties applied to 0. -/
def tieAVal : TECCMScore :=
  ⟨"TECCM-2", "", 0, ⟨0, ∅⟩, ⟨0, ∅⟩, ⟨0, ∅⟩, ⟨0, ∅⟩,
   ["no_live_intervals", "no_hosts", "no_services"], [], tieA⟩

def tieBVal : TECCMScore :=
  ⟨"TECCM-1", "", 0, ⟨0, ∅⟩, ⟨0, ∅⟩, ⟨0, ∅⟩, ⟨0, ∅⟩,
   ["no_live_intervals", "no_hosts", "no_services"], [], tieB⟩

/-- Discovery example: incident created 2025-07-22T12:00:00Z, default
options.  The three JQL strings the source builds for it. -/
def c3Created : String := "2025-07-22T12:00:00Z"

def c3JqlWindow : String :=
  jqlWindowStr "TECCM" "2025-07-20 12:00" "2025-07-22 14:00" ""

def c3JqlActive : String := jqlActiveStr "TECCM" "2025-07-22 12:00" ""

def c3JqlNoEnd : String := jqlNoEndStr "TECCM" "2025-07-22 12:00" ""

/-- A tracker on which the window query raises while the other two queries
would succeed. -/
def c3SearchWindowFails : SearchFn := fun q _ =>
  if q = c3JqlWindow then .error "connection reset"
  else if q = c3JqlActive then .ok ["TECCM-2"]
  else if q = c3JqlNoEnd then .ok ["TECCM-3"]
  else .ok []

/-- A tracker on which all three queries raise. -/
def c3SearchAllFail : SearchFn := fun _ _ => .error "boom"

/-- A tracker where all three queries succeed with overlapping results. -/
def c3SearchOk : SearchFn := fun q _ =>
  if q = c3JqlWindow then .ok ["TECCM-1", "TECCM-2"]
  else if q = c3JqlActive then .ok ["TECCM-2", "TECCM-3"]
  else if q = c3JqlNoEnd then .ok ["TECCM-4"]
  else .ok []

/-- The comment of C6's failing input: an interval written across midnight
with the second date omitted. -/
def c6Comment : CommentRec :=
  ⟨"10001", "alice", none, "[22/07/2025 23:00, 01:00]"⟩

/-- A raw issue with no text content at all (C8).  On its (whitespace-only)
text pool every host pattern returns no matches, so the constant-empty
`findall` below instantiates the regex engine faithfully. -/
def c8Raw : RawIssue :=
  ⟨"TECCM-77", "Change", none, none, some "2025-07-22T10:00:00.000+0000", none,
   none, none, none, none, [], none, none, none, none, none, none, none, none,
   none, none, [], none, none, none⟩

def noHostMatches : HostPat → String → List String := fun _ _ => []

/-- A host regex engine reporting one IONOS-style match on every pattern
(used to witness C7 with a non-empty host set). -/
def c7Findall : HostPat → String → List String := fun _ _ => ["s3-node-91"]

/-- `start ≤ end` for a stored live interval, read back through the scorer's
`parse_datetime`. -/
def Interval.ordered (iv : Interval) : Prop :=
  ∀ s e : DT, parse_datetime (some iv.start) = some s →
    parse_datetime (some iv.stop) = some e → s.le e

/-- Drop the wall-clock extraction stamp (the only input-independent field of
a normalized Ticket). -/
def Ticket.clearStamp (t : Ticket) : Ticket :=
  { t with extraction := { t.extraction with extracted_at := "" } }

/-- Every character is fixed by lower-casing. -/
def LowerChars (cs : List Char) : Prop := ∀ c ∈ cs, c.toLower = c

/-- A well-formed entity value: non-empty and already lower-cased. -/
def IsCleanEntity (s : String) : Prop := s ≠ "" ∧ strLower s = s

instance (s : String) : Decidable (IsCleanEntity s) :=
  inferInstanceAs (Decidable (_ ∧ _))

/-- An entity list as the spec requires: duplicate-free with clean values. -/
def GoodEntityList (l : List String) : Prop :=
  l.Nodup ∧ ∀ v ∈ l, IsCleanEntity v

/-! ## Theorems -/

/-! ### Evaluation of the scenario-1 inputs -/

theorem scn1_time : calculate_time_score id (some "2025-07-22T12:20:00Z") none
    [⟨"2025-07-22T12:00:00Z", "2025-07-22T13:00:00Z"⟩] none none 4 =
    ⟨100, {"2025-07-22 12:00 - 13:00"}⟩ := by decide

theorem scn1_service :
    calculate_service_score ["s3 object storage"] ["s3 object storage"] =
    ⟨100, {"s3 object storage"}⟩ := by
  have h1 : pySetLS ["s3 object storage"] = {"s3 object storage"} := by decide
  have h2 : ({"s3 object storage"} : Finset String) ∩ {"s3 object storage"} =
      {"s3 object storage"} := by decide
  have h3 : jaccard_similarity {"s3 object storage"} {"s3 object storage"} = 1 := by
    have hc : (({"s3 object storage"} : Finset String) ∩
        {"s3 object storage"}).card = 1 := by decide
    have hu : (({"s3 object storage"} : Finset String) ∪
        {"s3 object storage"}).card = 1 := by decide
    simp only [jaccard_similarity, hc, hu]
    norm_num
  have hne : ¬({"s3 object storage"} = (∅ : Finset String) ∨
      {"s3 object storage"} = (∅ : Finset String)) := by decide
  have hne2 : ({"s3 object storage"} : Finset String) ≠ ∅ := by decide
  simp only [calculate_service_score, h1, h2, h3, if_neg hne, if_pos hne2]
  simp only [ScoreDetail.mk.injEq]
  refine ⟨by norm_num [round1], by trivial⟩

theorem scn1_infra : calculate_infra_score ["s3-node-91"] [] ["s3-node-91"] [] =
    ⟨60, {"s3-node-91"}⟩ := by
  have h1 : pySetLS ["s3-node-91"] = {"s3-node-91"} := by decide
  have h0 : pySetLS ([] : List String) = (∅ : Finset String) := by decide
  have h2 : ({"s3-node-91"} : Finset String) ∩ {"s3-node-91"} =
      {"s3-node-91"} := by decide
  have hne : ({"s3-node-91"} : Finset String) ≠ ∅ := by decide
  have hee : ¬((∅ : Finset String) ≠ ∅ ∧ (∅ : Finset String) ≠ ∅) := by decide
  simp only [calculate_infra_score, h1, h0, h2, if_pos (And.intro hne hne),
    if_pos hne, if_neg hee]
  simp only [ScoreDetail.mk.injEq]
  refine ⟨by norm_num [round1], by decide⟩

theorem emptyOrg : calculate_org_score [] none [] none = ⟨0, ∅⟩ := by
  have h0 : pySetLS ([] : List String) = (∅ : Finset String) := by decide
  have ht : orgTeamPart none none = (0, ∅) := by simp only [orgTeamPart]
  simp only [calculate_org_score, h0, ht, Finset.empty_inter]
  simp only [ScoreDetail.mk.injEq]
  refine ⟨by norm_num [round1], by simp⟩

theorem scn1_score : score_teccm id scn1Inc scn1Teccm DEFAULT_WEIGHTS
    DEFAULT_THRESHOLDS DEFAULT_PENALTIES DEFAULT_BONUSES = scn1Val := by
  have hpn : parse_datetime none = none := rfl
  have hfi : parse_datetime (some "2025-07-22T12:20:00Z") =
      some ⟨2025, 7, 22, 12, 20, 0⟩ := by decide
  simp only [score_teccm, scn1Inc, scn1Teccm, DEFAULT_THRESHOLDS, scn1Val]
  simp only [scn1_time, scn1_service, scn1_infra, emptyOrg, hpn, hfi]
  simp only [TECCMScore.mk.injEq]
  norm_num [DEFAULT_WEIGHTS, DEFAULT_PENALTIES, GENERIC_CHANGE_THRESHOLD, round1]

theorem scn1_ranking : calculate_ranking id ⟨[scn1Inc, scn1Teccm]⟩
    DEFAULT_WEIGHTS DEFAULT_THRESHOLDS DEFAULT_PENALTIES DEFAULT_BONUSES 0 =
    .ok ⟨⟨"INC-1", "inc", some "2025-07-22T12:20:00Z", none,
          ["s3 object storage"], ["s3-node-91"], []⟩,
         ⟨1, 1, DEFAULT_WEIGHTS, DEFAULT_THRESHOLDS, DEFAULT_PENALTIES,
          DEFAULT_BONUSES⟩,
         [(1, scn1Val)]⟩ := by
  have hnz : ¬(DEFAULT_WEIGHTS.time + DEFAULT_WEIGHTS.service +
      DEFAULT_WEIGHTS.infra + DEFAULT_WEIGHTS.org = 0) := by
    norm_num [DEFAULT_WEIGHTS]
  have hnorm : normalizeWeights DEFAULT_WEIGHTS = DEFAULT_WEIGHTS := by
    simp only [normalizeWeights, DEFAULT_WEIGHTS, Weights.mk.injEq]
    norm_num
  have hfilt1 : ([scn1Inc, scn1Teccm].filter
      (fun t => t.ticket_type = "INCIDENT")) = [scn1Inc] := by decide
  have hfilt2 : ([scn1Inc, scn1Teccm].filter
      (fun t => t.ticket_type = "CHANGE")) = [scn1Teccm] := by decide
  simp only [calculate_ranking, if_neg hnz, hnorm, hfilt1, hfilt2,
    List.map_cons, List.map_nil, scn1_score]
  rw [List.filter_cons_of_pos (by norm_num [scn1Val])]
  simp [List.insertionSort, List.orderedInsert, List.enumFrom, scn1Val, scn1Inc]

/-! ### Evaluation of the contentless tie-break tickets -/

theorem emptyTime : calculate_time_score id none none [] none none 4 =
    ⟨0, ∅⟩ := by decide

theorem emptyService : calculate_service_score [] [] = ⟨0, ∅⟩ := by decide

theorem emptyInfra : calculate_infra_score [] [] [] [] = ⟨0, ∅⟩ := by
  have h0 : pySetLS ([] : List String) = (∅ : Finset String) := by decide
  have hee : ¬((∅ : Finset String) ≠ ∅ ∧ (∅ : Finset String) ≠ ∅) := by decide
  simp only [calculate_infra_score, h0, if_neg hee, Finset.empty_inter]
  simp only [ScoreDetail.mk.injEq]
  refine ⟨by norm_num [round1], by simp⟩

theorem tieA_score : score_teccm id tieInc tieA DEFAULT_WEIGHTS
    DEFAULT_THRESHOLDS DEFAULT_PENALTIES DEFAULT_BONUSES = tieAVal := by
  have hpn : parse_datetime none = none := rfl
  simp only [score_teccm, tieInc, tieA, tieAVal, DEFAULT_THRESHOLDS]
  simp only [emptyTime, emptyService, emptyInfra, emptyOrg, hpn, Option.orElse]
  simp only [TECCMScore.mk.injEq]
  norm_num [DEFAULT_WEIGHTS, DEFAULT_PENALTIES, GENERIC_CHANGE_THRESHOLD, round1]

theorem tieB_score : score_teccm id tieInc tieB DEFAULT_WEIGHTS
    DEFAULT_THRESHOLDS DEFAULT_PENALTIES DEFAULT_BONUSES = tieBVal := by
  have hpn : parse_datetime none = none := rfl
  simp only [score_teccm, tieInc, tieB, tieBVal, DEFAULT_THRESHOLDS]
  simp only [emptyTime, emptyService, emptyInfra, emptyOrg, hpn, Option.orElse]
  simp only [TECCMScore.mk.injEq]
  norm_num [DEFAULT_WEIGHTS, DEFAULT_PENALTIES, GENERIC_CHANGE_THRESHOLD, round1]

theorem tie_ranking : calculate_ranking id ⟨[tieInc, tieA, tieB]⟩
    DEFAULT_WEIGHTS DEFAULT_THRESHOLDS DEFAULT_PENALTIES DEFAULT_BONUSES 0 =
    .ok ⟨⟨"INC-9", "", none, none, [], [], []⟩,
         ⟨2, 2, DEFAULT_WEIGHTS, DEFAULT_THRESHOLDS, DEFAULT_PENALTIES,
          DEFAULT_BONUSES⟩,
         [(1, tieAVal), (2, tieBVal)]⟩ := by
  have hnz : ¬(DEFAULT_WEIGHTS.time + DEFAULT_WEIGHTS.service +
      DEFAULT_WEIGHTS.infra + DEFAULT_WEIGHTS.org = 0) := by
    norm_num [DEFAULT_WEIGHTS]
  have hnorm : normalizeWeights DEFAULT_WEIGHTS = DEFAULT_WEIGHTS := by
    simp only [normalizeWeights, DEFAULT_WEIGHTS, Weights.mk.injEq]
    norm_num
  have hfilt1 : ([tieInc, tieA, tieB].filter
      (fun t => t.ticket_type = "INCIDENT")) = [tieInc] := by decide
  have hfilt2 : ([tieInc, tieA, tieB].filter
      (fun t => t.ticket_type = "CHANGE")) = [tieA, tieB] := by decide
  simp only [calculate_ranking, if_neg hnz, hnorm, hfilt1, hfilt2,
    List.map_cons, List.map_nil, tieA_score, tieB_score]
  rw [List.filter_cons_of_pos (by norm_num [tieAVal]),
    List.filter_cons_of_pos (by norm_num [tieBVal])]
  simp only [List.filter_nil]
  rw [show List.insertionSort
      (fun a b : TECCMScore => b.final_score ≤ a.final_score)
      [tieAVal, tieBVal] = [tieAVal, tieBVal] by
    simp only [List.insertionSort, List.orderedInsert]
    rw [if_pos (by norm_num [tieAVal, tieBVal])]]
  simp [List.enumFrom, tieInc]

/-! ### Claim C1 -/

/-- Claim C1 counterexample: on the literal scenario-1 inputs the scorer does
not apply the `proximity_1h` bonus (the candidate has no `planned_start`, so
no proximity bonus fires) and the final score is 77.0, not the claimed
100.1. -/
theorem C1_claim_false :
    (score_teccm id scn1Inc scn1Teccm DEFAULT_WEIGHTS DEFAULT_THRESHOLDS
      DEFAULT_PENALTIES DEFAULT_BONUSES).final_score = 77 ∧
    (77 : ℚ) ≠ 1001 / 10 ∧
    (score_teccm id scn1Inc scn1Teccm DEFAULT_WEIGHTS DEFAULT_THRESHOLDS
      DEFAULT_PENALTIES DEFAULT_BONUSES).bonuses_applied = [] := by
  refine ⟨?_, by norm_num, ?_⟩ <;> rw [scn1_score] <;> rfl

/-- Claim C1, amended: for the end-to-end scenario-1 inputs the scorer
returns sub-scores time=100, service=100, infra=60, org=0, a raw weighted
score of 77.0, applies no proximity bonus (the candidate supplies no
`plannedStart`), and returns final score 77.0, ranked 1. -/
theorem C1_amended_eval :
    (score_teccm id scn1Inc scn1Teccm DEFAULT_WEIGHTS DEFAULT_THRESHOLDS
      DEFAULT_PENALTIES DEFAULT_BONUSES).time_score.score = 100 ∧
    (score_teccm id scn1Inc scn1Teccm DEFAULT_WEIGHTS DEFAULT_THRESHOLDS
      DEFAULT_PENALTIES DEFAULT_BONUSES).service_score.score = 100 ∧
    (score_teccm id scn1Inc scn1Teccm DEFAULT_WEIGHTS DEFAULT_THRESHOLDS
      DEFAULT_PENALTIES DEFAULT_BONUSES).infra_score.score = 60 ∧
    (score_teccm id scn1Inc scn1Teccm DEFAULT_WEIGHTS DEFAULT_THRESHOLDS
      DEFAULT_PENALTIES DEFAULT_BONUSES).org_score.score = 0 ∧
    (score_teccm id scn1Inc scn1Teccm DEFAULT_WEIGHTS DEFAULT_THRESHOLDS
      DEFAULT_PENALTIES DEFAULT_BONUSES).final_score = 77 ∧
    (score_teccm id scn1Inc scn1Teccm DEFAULT_WEIGHTS DEFAULT_THRESHOLDS
      DEFAULT_PENALTIES DEFAULT_BONUSES).penalties_applied = [] ∧
    (score_teccm id scn1Inc scn1Teccm DEFAULT_WEIGHTS DEFAULT_THRESHOLDS
      DEFAULT_PENALTIES DEFAULT_BONUSES).bonuses_applied = [] ∧
    (calculate_ranking id ⟨[scn1Inc, scn1Teccm]⟩ DEFAULT_WEIGHTS
      DEFAULT_THRESHOLDS DEFAULT_PENALTIES DEFAULT_BONUSES 0).toOption.map
      (fun r => r.ranking.map (fun p => (p.1, p.2.issue_key, p.2.final_score)))
      = some [(1, "TECCM-1", 77)] := by
  rw [scn1_score, scn1_ranking]
  refine ⟨rfl, rfl, rfl, rfl, rfl, rfl, rfl, rfl⟩

/-! ### Claim C2: stability of the ranking sort -/

theorem enumFrom_map_snd {α : Type} :
    ∀ (n : Nat) (l : List α), (List.enumFrom n l).map Prod.snd = l
  | _, [] => rfl
  | n, a :: l => by
    simp only [List.enumFrom, List.map_cons, List.cons.injEq, true_and]
    exact enumFrom_map_snd (n + 1) l

theorem filter_orderedInsert_pos {α : Type} (r : α → α → Prop) [DecidableRel r]
    (p : α → Bool) (a : α) (l : List α) (hpa : p a = true)
    (hskip : ∀ b, ¬ r a b → p b = false) :
    (l.orderedInsert r a).filter p = a :: l.filter p := by
  induction l with
  | nil => simp [List.orderedInsert, hpa]
  | cons b bs ih =>
    by_cases h : r a b
    · simp [List.orderedInsert, h, List.filter_cons, hpa]
    · have hb := hskip b h
      simp [List.orderedInsert, h, List.filter_cons, hb, ih]

theorem filter_orderedInsert_neg {α : Type} (r : α → α → Prop) [DecidableRel r]
    (p : α → Bool) (a : α) (l : List α) (hpa : p a = false) :
    (l.orderedInsert r a).filter p = l.filter p := by
  induction l with
  | nil => simp [List.orderedInsert, hpa]
  | cons b bs ih =>
    by_cases h : r a b
    · simp [List.orderedInsert, h, List.filter_cons, hpa]
    · simp [List.orderedInsert, h, List.filter_cons, ih]

/-- The stable sort keeps each equal-score class in its original order. -/
theorem filter_insertionSort_score (q : ℚ) (l : List TECCMScore) :
    ((List.insertionSort (fun a b => b.final_score ≤ a.final_score) l).filter
      (fun s => s.final_score = q)) = l.filter (fun s => s.final_score = q) := by
  induction l with
  | nil => rfl
  | cons a l ih =>
    simp only [List.insertionSort]
    by_cases hpa : a.final_score = q
    · rw [filter_orderedInsert_pos _ _ a _ (by simp [hpa])
        (fun b hb => by
          simp only [decide_eq_false_iff_not]
          intro hbq
          exact hb (le_of_eq (hbq.trans hpa.symm))), ih]
      simp [List.filter_cons, hpa]
    · rw [filter_orderedInsert_neg _ _ a _ (by simp [hpa]), ih]
      simp [List.filter_cons, hpa]

/-- Claim C2 counterexample: two candidates with equal final scores, supplied
with keys in descending order, are ranked in that supplied order — not in
ascending key order. -/
theorem C2_claim_false :
    (calculate_ranking id ⟨[tieInc, tieA, tieB]⟩ DEFAULT_WEIGHTS
      DEFAULT_THRESHOLDS DEFAULT_PENALTIES DEFAULT_BONUSES 0).toOption.map
      (fun r => r.ranking.map (fun p => (p.1, p.2.issue_key, p.2.final_score)))
      = some [(1, "TECCM-2", 0), (2, "TECCM-1", 0)] ∧
    ("TECCM-1" : String) < "TECCM-2" := by
  refine ⟨?_, by rw [String.lt_iff_toList_lt]; decide⟩
  rw [tie_ranking]
  rfl

/-- Claim C2, amended: the ranking is sorted by final score descending, and
candidates with equal final scores appear in the order they were supplied
(Python's `sorted` is stable and uses no key tie-break), not in ascending
key order. -/
theorem C2_amended_ranking (sq : ℚ → ℚ) (data : ExtractionData) (w : Weights)
    (th : Thresholds) (pen : Penalties) (bon : Bonuses) (ms : ℚ)
    (res : RankingResult) (inc : ScTicket) (incs : List ScTicket)
    (hinc : data.tickets.filter (fun t => t.ticket_type = "INCIDENT") =
      inc :: incs)
    (hres : calculate_ranking sq data w th pen bon ms = .ok res) :
    ((res.ranking.map Prod.snd).Sorted
      (fun a b => b.final_score ≤ a.final_score)) ∧
    (∀ q : ℚ, (res.ranking.map Prod.snd).filter (fun s => s.final_score = q) =
      (((data.tickets.filter (fun t => t.ticket_type = "CHANGE")).map
        (fun teccm => score_teccm sq inc teccm (normalizeWeights w) th pen
          bon)).filter (fun s => ms ≤ s.final_score)).filter
        (fun s => s.final_score = q)) := by
  simp only [calculate_ranking, hinc] at hres
  split at hres
  · exact absurd hres (by simp)
  · split at hres
    · exact absurd hres (by simp)
    · injection hres with hres
      subst hres
      constructor
      · rw [enumFrom_map_snd]
        haveI : IsTotal TECCMScore
            (fun a b => b.final_score ≤ a.final_score) :=
          ⟨fun a b => le_total _ _⟩
        haveI : IsTrans TECCMScore
            (fun a b => b.final_score ≤ a.final_score) :=
          ⟨fun _ _ _ hab hbc => le_trans hbc hab⟩
        exact List.sorted_insertionSort _ _
      · intro q
        rw [enumFrom_map_snd, filter_insertionSort_score]

/-- Witness for the amended C2 at the concrete tie example. -/
theorem C2_amended_witness :
    ((([(1, tieAVal), (2, tieBVal)] : List (Nat × TECCMScore)).map
      Prod.snd).Sorted (fun a b => b.final_score ≤ a.final_score)) ∧
    (([(1, tieAVal), (2, tieBVal)] : List (Nat × TECCMScore)).map
      Prod.snd).filter (fun s => s.final_score = 0) =
      ((([tieInc, tieA, tieB].filter (fun t => t.ticket_type = "CHANGE")).map
        (fun teccm => score_teccm id tieInc teccm
          (normalizeWeights DEFAULT_WEIGHTS) DEFAULT_THRESHOLDS
          DEFAULT_PENALTIES DEFAULT_BONUSES)).filter
        (fun s => (0 : ℚ) ≤ s.final_score)).filter
        (fun s => s.final_score = 0) := by
  have h := C2_amended_ranking id ⟨[tieInc, tieA, tieB]⟩ DEFAULT_WEIGHTS
    DEFAULT_THRESHOLDS DEFAULT_PENALTIES DEFAULT_BONUSES 0
    ⟨⟨"INC-9", "", none, none, [], [], []⟩,
     ⟨2, 2, DEFAULT_WEIGHTS, DEFAULT_THRESHOLDS, DEFAULT_PENALTIES,
      DEFAULT_BONUSES⟩,
     [(1, tieAVal), (2, tieBVal)]⟩
    tieInc [] (by decide) tie_ranking
  exact ⟨h.1, h.2 0⟩

/-! ### Claim C3: discovery error handling -/

theorem toFinset_sinsert (s : String) (l : List String) :
    (sinsert s l).toFinset = insert s l.toFinset := by
  by_cases h : s ∈ l
  · simp [sinsert, h, Finset.insert_eq_self.mpr (List.mem_toFinset.mpr h)]
  · simp [sinsert, h, Finset.insert_eq, Finset.union_comm]

theorem toFinset_foldl_sinsert (ks : List String) (acc : List String) :
    (ks.foldl (fun a k => sinsert k a) acc).toFinset =
      acc.toFinset ∪ ks.toFinset := by
  induction ks generalizing acc with
  | nil => simp
  | cons k ks ih =>
    simp only [List.foldl_cons, ih, toFinset_sinsert, List.toFinset_cons,
      Finset.insert_union, Finset.union_insert]

/-- Claim C3 counterexample: the three queries share one `try` block, so an
error in the window query returns the empty set even though the active-at and
open-ended queries would succeed with `TECCM-2` and `TECCM-3`. -/
theorem C3_claim_false :
    search_teccm_in_window c3SearchWindowFails c3Created defaultSearchOptions
      = [] ∧
    c3SearchWindowFails c3JqlActive 500 = .ok ["TECCM-2"] ∧
    c3SearchWindowFails c3JqlNoEnd 500 = .ok ["TECCM-3"] ∧
    (([] : List String).toFinset ≠
      (["TECCM-2", "TECCM-3"] : List String).toFinset) := by
  refine ⟨by decide, by decide, by decide, by decide⟩

/-- Claim C3, amended: one `try` covers all three queries, so an error in a
query discards every later query: an erroring window query yields the empty
set; an erroring active-at query yields just the window keys; an erroring
open-ended query yields the union of the first two; when all succeed the
full union is returned. -/
theorem C3_amended_behavior (search : SearchFn) (inc_created : String)
    (options : SearchOptions) (inc_dt start_dt end_dt : DT)
    (hp : parseISO19 (inc_created.data.take 19) = some inc_dt)
    (hs : shiftMinutes inc_dt (-options.window_before) = some start_dt)
    (he : shiftMinutes inc_dt options.window_after = some end_dt) :
    let extra := if options.extra_jql ≠ "" then " " ++ options.extra_jql else ""
    let jw := jqlWindowStr options.project (fmtYMDHM start_dt)
      (fmtYMDHM end_dt) extra
    let ja := jqlActiveStr options.project (fmtYMDHM inc_dt) extra
    let jn := jqlNoEndStr options.project (fmtYMDHM inc_dt) extra
    (∀ err, search jw options.max_results = .error err →
      search_teccm_in_window search inc_created options = []) ∧
    (∀ ks err, search jw options.max_results = .ok ks →
      options.include_active = true →
      search ja options.max_results = .error err →
      (search_teccm_in_window search inc_created options).toFinset =
        ks.toFinset) ∧
    (∀ ks as err, search jw options.max_results = .ok ks →
      options.include_active = true →
      search ja options.max_results = .ok as →
      options.include_no_end = true →
      search jn options.max_results = .error err →
      (search_teccm_in_window search inc_created options).toFinset =
        ks.toFinset ∪ as.toFinset) ∧
    (∀ ks as ns, search jw options.max_results = .ok ks →
      options.include_active = true →
      search ja options.max_results = .ok as →
      options.include_no_end = true →
      search jn options.max_results = .ok ns →
      (search_teccm_in_window search inc_created options).toFinset =
        ks.toFinset ∪ as.toFinset ∪ ns.toFinset) := by
  intro extra jw ja jn
  refine ⟨?_, ?_, ?_, ?_⟩
  · intro err hw
    simp only [search_teccm_in_window, hp, hs, he, hw]
  · intro ks err hw ha hae
    simp only [search_teccm_in_window, hp, hs, he, hw, searchActiveStep,
      ha, if_true, hae]
    simp [toFinset_foldl_sinsert]
  · intro ks as err hw ha hao hn hne
    simp only [search_teccm_in_window, hp, hs, he, hw, searchActiveStep,
      ha, if_true, hao, searchNoEndStep, hn, hne]
    simp [toFinset_foldl_sinsert, Finset.union_assoc]
  · intro ks as ns hw ha hao hn hno
    simp only [search_teccm_in_window, hp, hs, he, hw, searchActiveStep,
      ha, if_true, hao, searchNoEndStep, hn, hno]
    simp [toFinset_foldl_sinsert, Finset.union_assoc]

/-- Witness for the amended C3: all three queries succeed and the result is
the three-way union. -/
theorem C3_amended_witness :
    (search_teccm_in_window c3SearchOk c3Created defaultSearchOptions).toFinset
      = (["TECCM-1", "TECCM-2"] : List String).toFinset ∪
        (["TECCM-2", "TECCM-3"] : List String).toFinset ∪
        (["TECCM-4"] : List String).toFinset := by
  have h := C3_amended_behavior c3SearchOk c3Created defaultSearchOptions
    ⟨2025, 7, 22, 12, 0, 0⟩ ⟨2025, 7, 20, 12, 0, 0⟩ ⟨2025, 7, 22, 14, 0, 0⟩
    (by decide) (by decide) (by decide)
  exact h.2.2.2 ["TECCM-1", "TECCM-2"] ["TECCM-2", "TECCM-3"] ["TECCM-4"]
    (by decide) rfl (by decide) rfl (by decide)

/-! ### Claim C4: the live-interval time score -/

/-- The distance list the claim quantifies over: one distance per interval
with parseable endpoints. -/
def intervalDists (impact : DT) (ivs : List Interval) : List ℚ :=
  ivs.filterMap (fun iv =>
    match parse_datetime (some iv.start), parse_datetime (some iv.stop) with
    | some s, some e => some (distToInterval impact s e)
    | _, _ => none)

theorem step_min (d m : ℚ) :
    (if d < m then some d else some m) = some (min m d) := by
  rcases lt_or_le d m with h | h
  · rw [if_pos h, min_eq_right h.le]
  · rw [if_neg (not_lt.mpr h), min_eq_left h]

theorem minDistLoop_from_some (impact : DT) (ivs : List Interval) (m : ℚ)
    (hparse : ∀ iv ∈ ivs, ∃ s e : DT,
      parse_datetime (some iv.start) = some s ∧
      parse_datetime (some iv.stop) = some e) :
    ivs.foldl (minDistStep impact) (some m) =
      some ((intervalDists impact ivs).foldl min m) := by
  induction ivs generalizing m with
  | nil => rfl
  | cons iv rest ih =>
    obtain ⟨s, e, hs, he⟩ := hparse iv (List.mem_cons_self iv rest)
    have hrest := fun x hx => hparse x (List.mem_cons_of_mem iv hx)
    have hstep : minDistStep impact (some m) iv =
        some (min m (distToInterval impact s e)) := by
      simp only [minDistStep, hs, he, step_min]
    rw [List.foldl_cons, hstep, ih _ hrest]
    simp only [intervalDists, List.filterMap_cons, hs, he, List.foldl_cons]

theorem minDistLoop_eq_min (impact : DT) (ivs : List Interval)
    (hparse : ∀ iv ∈ ivs, ∃ s e : DT,
      parse_datetime (some iv.start) = some s ∧
      parse_datetime (some iv.stop) = some e) :
    minDistLoop impact ivs = (intervalDists impact ivs).min? := by
  cases ivs with
  | nil => rfl
  | cons iv rest =>
    obtain ⟨s, e, hs, he⟩ := hparse iv (List.mem_cons_self iv rest)
    have hrest := fun x hx => hparse x (List.mem_cons_of_mem iv hx)
    have hstep : minDistStep impact none iv =
        some (distToInterval impact s e) := by
      simp only [minDistStep, hs, he]
    have hdef : (intervalDists impact (iv :: rest)).min? =
        some ((intervalDists impact rest).foldl min
          (distToInterval impact s e)) := by
      simp only [intervalDists, List.filterMap_cons, hs, he]
      rfl
    rw [minDistLoop, List.foldl_cons, hstep, hdef]
    exact minDistLoop_from_some impact rest (distToInterval impact s e) hrest

theorem distToInterval_pos (t s e : DT) (h : ¬(s.le t ∧ t.le e)) :
    0 < distToInterval t s e := by
  unfold distToInterval
  split
  · next hlt =>
    have h1 : (0 : ℤ) < s.toSecs - t.toSecs := sub_pos.mpr hlt
    have h2 : (0 : ℚ) < ((s.toSecs - t.toSecs : ℤ) : ℚ) := by exact_mod_cast h1
    exact div_pos h2 (by norm_num)
  · next hge =>
    split
    · next hlt =>
      have h1 : (0 : ℤ) < t.toSecs - e.toSecs := sub_pos.mpr hlt
      have h2 : (0 : ℚ) < ((t.toSecs - e.toSecs : ℤ) : ℚ) := by exact_mod_cast h1
      exact div_pos h2 (by norm_num)
    · next hge2 =>
      exact absurd ⟨le_of_not_lt hge, le_of_not_lt hge2⟩ h

/-- Claim C4: with non-empty, fully parseable live intervals, the time
sub-score is 100 when the impact time lies inside some interval; otherwise,
with `d` the minimum distance in minutes to any interval and
`D = timeDecayHours * 60`, it is 0 when `d ≥ D` and
`round1 (100 * (1 - sq (d / D)))` when `0 < d < D` (`sq` embeds the float
square root `** 0.5`). -/
theorem C4_time_formula (sq : ℚ → ℚ)
    (inc_first_impact inc_created teccm_planned_start teccm_planned_end :
      Option String)
    (teccm_live_intervals : List Interval) (decay_hours : ℚ) (impact : DT)
    (hT : parse_datetime (pyOr inc_first_impact inc_created) = some impact)
    (hparse : ∀ iv ∈ teccm_live_intervals, ∃ s e : DT,
      parse_datetime (some iv.start) = some s ∧
      parse_datetime (some iv.stop) = some e) :
    ((∃ iv ∈ teccm_live_intervals, ∃ s e : DT,
        parse_datetime (some iv.start) = some s ∧
        parse_datetime (some iv.stop) = some e ∧ s.le impact ∧ impact.le e) →
      (calculate_time_score sq inc_first_impact inc_created
        teccm_live_intervals teccm_planned_start teccm_planned_end
        decay_hours).score = 100) ∧
    (∀ d : ℚ,
      (¬ ∃ iv ∈ teccm_live_intervals, ∃ s e : DT,
        parse_datetime (some iv.start) = some s ∧
        parse_datetime (some iv.stop) = some e ∧ s.le impact ∧ impact.le e) →
      (intervalDists impact teccm_live_intervals).min? = some d →
      0 < d ∧
      (decay_hours * 60 ≤ d →
        (calculate_time_score sq inc_first_impact inc_created
          teccm_live_intervals teccm_planned_start teccm_planned_end
          decay_hours).score = 0) ∧
      (d < decay_hours * 60 →
        (calculate_time_score sq inc_first_impact inc_created
          teccm_live_intervals teccm_planned_start teccm_planned_end
          decay_hours).score =
          round1 (100 * (1 - sq (d / (decay_hours * 60)))))) := by
  constructor
  · rintro ⟨iv, hmem, s, e, hs, he, h1, h2⟩
    have hfind : (teccm_live_intervals.find? (fun iv =>
        match parse_datetime (some iv.start), parse_datetime (some iv.stop) with
        | some s, some e => decide (s.le impact) && decide (impact.le e)
        | _, _ => false)).isSome := by
      apply List.find?_isSome.mpr
      refine ⟨iv, hmem, ?_⟩
      rw [hs, he]
      simp [h1, h2]
    obtain ⟨iv', hiv'⟩ := Option.isSome_iff_exists.mp hfind
    obtain ⟨s', e', hs', he'⟩ :=
      hparse iv' (List.mem_of_find?_eq_some hiv')
    simp only [calculate_time_score, hT, hiv', hs', he']
  · intro d hnc hmin
    have hd_pos : 0 < d := by
      have hd_mem := List.min?_mem (fun a b => min_choice a b) hmin
      obtain ⟨iv, hmem, hiv⟩ := List.mem_filterMap.mp hd_mem
      obtain ⟨s, e, hs, he⟩ := hparse iv hmem
      rw [hs, he] at hiv
      have hno : ¬(s.le impact ∧ impact.le e) := fun hc =>
        hnc ⟨iv, hmem, s, e, hs, he, hc.1, hc.2⟩
      have := distToInterval_pos impact s e hno
      simp only [Option.some.injEq] at hiv
      rw [← hiv]
      exact this
    have hfind : (teccm_live_intervals.find? (fun iv =>
        match parse_datetime (some iv.start), parse_datetime (some iv.stop) with
        | some s, some e => decide (s.le impact) && decide (impact.le e)
        | _, _ => false)) = none := by
      apply List.find?_eq_none.mpr
      intro iv hmem
      obtain ⟨s, e, hs, he⟩ := hparse iv hmem
      rw [hs, he]
      simp only [Bool.and_eq_true, decide_eq_true_eq, not_and]
      intro h1 h2
      exact absurd ⟨iv, hmem, s, e, hs, he, h1, h2⟩ hnc
    have hloop := minDistLoop_eq_min impact teccm_live_intervals hparse
    rw [hmin] at hloop
    refine ⟨hd_pos, ?_, ?_⟩
    · intro hge
      simp only [calculate_time_score, hT, hfind, hloop]
      rw [if_neg (ne_of_gt hd_pos), if_pos (by exact hge)]
      norm_num [round1]
    · intro hlt
      simp only [calculate_time_score, hT, hfind, hloop]
      rw [if_neg (ne_of_gt hd_pos), if_neg (by exact not_le.mpr hlt)]

/-- Witness for C4: impact one hour after a single one-hour interval, decay 4h;
the decayed-formula branch applies with d = 60 and D = 240. -/
theorem C4_witness :
    (calculate_time_score id (some "2025-07-22T12:00:00Z") none
      [⟨"2025-07-22T10:00:00Z", "2025-07-22T11:00:00Z"⟩] none none 4).score =
      round1 (100 * (1 - id ((60 : ℚ) / (4 * 60)))) := by
  have h10 : parse_datetime (some "2025-07-22T10:00:00Z") =
      some ⟨2025, 7, 22, 10, 0, 0⟩ := by decide
  have h11 : parse_datetime (some "2025-07-22T11:00:00Z") =
      some ⟨2025, 7, 22, 11, 0, 0⟩ := by decide
  have hd : distToInterval ⟨2025, 7, 22, 12, 0, 0⟩ ⟨2025, 7, 22, 10, 0, 0⟩
      ⟨2025, 7, 22, 11, 0, 0⟩ = 60 := by
    have hdiff : (⟨2025, 7, 22, 12, 0, 0⟩ : DT).toSecs -
        (⟨2025, 7, 22, 11, 0, 0⟩ : DT).toSecs = 3600 := by decide
    rw [distToInterval, if_neg (by decide), if_pos (by decide), hdiff]
    norm_num
  have hdists : intervalDists ⟨2025, 7, 22, 12, 0, 0⟩
      [⟨"2025-07-22T10:00:00Z", "2025-07-22T11:00:00Z"⟩] = [60] := by
    simp only [intervalDists, List.filterMap_cons, h10, h11,
      List.filterMap_nil, hd]
  have h := C4_time_formula id (some "2025-07-22T12:00:00Z") none none none
    [⟨"2025-07-22T10:00:00Z", "2025-07-22T11:00:00Z"⟩] 4
    ⟨2025, 7, 22, 12, 0, 0⟩ (by decide)
    (by
      intro iv hmem
      rw [List.mem_singleton] at hmem
      subst hmem
      exact ⟨⟨2025, 7, 22, 10, 0, 0⟩, ⟨2025, 7, 22, 11, 0, 0⟩, h10, h11⟩)
  have h2 := (h.2 60
    (by
      rintro ⟨iv, hmem, s, e, hs, he, h1, hcontain⟩
      rw [List.mem_singleton] at hmem
      subst hmem
      rw [h10] at hs
      rw [h11] at he
      injection hs with hs
      injection he with he
      subst hs
      subst he
      exact absurd hcontain (by decide))
    (by rw [hdists]; rfl))
  exact h2.2.2 (by norm_num)

/-! ### Claim C5: the service score -/

theorem round1_mono {x y : ℚ} (h : x ≤ y) : round1 x ≤ round1 y := by
  unfold round1
  have h2 : round (10 * x) ≤ round (10 * y) := by
    rw [round_eq, round_eq]
    exact Int.floor_mono (by linarith)
  have h3 : ((round (10 * x) : ℤ) : ℚ) ≤ ((round (10 * y) : ℤ) : ℚ) := by
    exact_mod_cast h2
  linarith

/-- Claim C5 counterexample: with intersection 1 and union 3 the code rounds
`50 + 50/3` to one decimal, returning 66.7 rather than the claim's exact
`50 + 50 * (1/3)`. -/
theorem C5_claim_false :
    (calculate_service_score ["a", "b"] ["b", "c"]).score = 667 / 10 ∧
    (50 : ℚ) + 50 * (1 / 3) ≠ 667 / 10 := by
  constructor
  · have h1 : pySetLS ["a", "b"] = {"a", "b"} := by decide
    have h2 : pySetLS ["b", "c"] = {"b", "c"} := by decide
    have hi : ({"a", "b"} : Finset String) ∩ {"b", "c"} = {"b"} := by decide
    have hj : jaccard_similarity {"a", "b"} {"b", "c"} = 1 / 3 := by
      have hc : (({"a", "b"} : Finset String) ∩ {"b", "c"}).card = 1 := by decide
      have hu : (({"a", "b"} : Finset String) ∪ {"b", "c"}).card = 3 := by decide
      simp only [jaccard_similarity, hc, hu]
      norm_num
    have hne : ¬({"a", "b"} = (∅ : Finset String) ∨
        {"b", "c"} = (∅ : Finset String)) := by decide
    have hne2 : ({"b"} : Finset String) ≠ ∅ := by decide
    simp only [calculate_service_score, h1, h2, hi, hj, if_neg hne, if_pos hne2]
    norm_num [round1, round_eq]
  · norm_num

/-- Claim C5, amended: empty side gives 0; non-empty intersection gives
`50 + Jaccard * 50` rounded to one decimal (hence still ≥ 50, and exactly
100 when the sets are equal); disjoint sets sharing a related group give 25;
otherwise 0. -/
theorem C5_amended_service (inc_services teccm_services : List String) :
    (pySetLS inc_services = ∅ ∨ pySetLS teccm_services = ∅ →
      (calculate_service_score inc_services teccm_services).score = 0) ∧
    (pySetLS inc_services ≠ ∅ → pySetLS teccm_services ≠ ∅ →
      pySetLS inc_services ∩ pySetLS teccm_services ≠ ∅ →
      (calculate_service_score inc_services teccm_services).score =
        round1 (50 +
          (((pySetLS inc_services ∩ pySetLS teccm_services).card : ℚ) /
            ((pySetLS inc_services ∪ pySetLS teccm_services).card)) * 50) ∧
      50 ≤ (calculate_service_score inc_services teccm_services).score ∧
      (pySetLS inc_services = pySetLS teccm_services →
        (calculate_service_score inc_services teccm_services).score = 100)) ∧
    (pySetLS inc_services ≠ ∅ → pySetLS teccm_services ≠ ∅ →
      pySetLS inc_services ∩ pySetLS teccm_services = ∅ →
      ((∃ g ∈ RELATED_SERVICE_GROUPS, pySetLS inc_services ∩ g.2 ≠ ∅ ∧
          pySetLS teccm_services ∩ g.2 ≠ ∅) →
        (calculate_service_score inc_services teccm_services).score = 25) ∧
      (¬(∃ g ∈ RELATED_SERVICE_GROUPS, pySetLS inc_services ∩ g.2 ≠ ∅ ∧
          pySetLS teccm_services ∩ g.2 ≠ ∅) →
        (calculate_service_score inc_services teccm_services).score = 0)) := by
  refine ⟨?_, ?_, ?_⟩
  · intro h
    simp only [calculate_service_score, if_pos h]
  · intro hI hC hIC
    have hor : ¬(pySetLS inc_services = ∅ ∨ pySetLS teccm_services = ∅) := by
      rintro (h | h) <;> [exact hI h; exact hC h]
    have hucard : 0 < (pySetLS inc_services ∪ pySetLS teccm_services).card := by
      apply Finset.card_pos.mpr
      obtain ⟨x, hx⟩ := Finset.nonempty_iff_ne_empty.mpr hI
      exact ⟨x, Finset.mem_union_left _ hx⟩
    have hj : jaccard_similarity (pySetLS inc_services)
        (pySetLS teccm_services) =
        ((pySetLS inc_services ∩ pySetLS teccm_services).card : ℚ) /
          ((pySetLS inc_services ∪ pySetLS teccm_services).card) := by
      simp only [jaccard_similarity, if_neg hor, if_pos hucard]
    have heq : (calculate_service_score inc_services teccm_services).score =
        round1 (50 +
          (((pySetLS inc_services ∩ pySetLS teccm_services).card : ℚ) /
            ((pySetLS inc_services ∪ pySetLS teccm_services).card)) * 50) := by
      simp only [calculate_service_score, if_neg hor, if_pos hIC, hj]
    refine ⟨heq, ?_, ?_⟩
    · rw [heq]
      have h50 : round1 50 = 50 := by norm_num [round1, round_eq]
      have hj0 : (0 : ℚ) ≤
          (((pySetLS inc_services ∩ pySetLS teccm_services).card : ℚ) /
            ((pySetLS inc_services ∪ pySetLS teccm_services).card)) * 50 := by
        positivity
      calc (50 : ℚ) = round1 50 := h50.symm
        _ ≤ _ := round1_mono (by linarith)
    · intro hEq
      rw [heq]
      have hinter : pySetLS inc_services ∩ pySetLS teccm_services =
          pySetLS inc_services := by rw [hEq, Finset.inter_self]
      have hunion : pySetLS inc_services ∪ pySetLS teccm_services =
          pySetLS inc_services := by rw [hEq, Finset.union_self]
      rw [hinter, hunion]
      have hc : 0 < (pySetLS inc_services).card :=
        Finset.card_pos.mpr (Finset.nonempty_iff_ne_empty.mpr hI)
      rw [div_self (by exact_mod_cast hc.ne')]
      norm_num [round1, round_eq]
  · intro hI hC hIC
    have hor : ¬(pySetLS inc_services = ∅ ∨ pySetLS teccm_services = ∅) := by
      rintro (h | h) <;> [exact hI h; exact hC h]
    constructor
    · rintro ⟨g, hg, hg1, hg2⟩
      have hfil : RELATED_SERVICE_GROUPS.filter (fun g =>
          (pySetLS inc_services ∩ g.2) ≠ ∅ ∧
          (pySetLS teccm_services ∩ g.2) ≠ ∅) ≠ [] := by
        intro hnil
        rw [List.filter_eq_nil_iff] at hnil
        exact hnil g hg (by simp [hg1, hg2])
      simp only [calculate_service_score, if_neg hor,
        if_neg (not_not_intro hIC)]
      cases hf : RELATED_SERVICE_GROUPS.filter (fun g =>
          (pySetLS inc_services ∩ g.2) ≠ ∅ ∧
          (pySetLS teccm_services ∩ g.2) ≠ ∅) with
      | nil => exact absurd hf hfil
      | cons a l =>
        simp only [hf, firstMaxBy]
        norm_num [round1, round_eq]
    · intro hno
      have hfil : RELATED_SERVICE_GROUPS.filter (fun g =>
          (pySetLS inc_services ∩ g.2) ≠ ∅ ∧
          (pySetLS teccm_services ∩ g.2) ≠ ∅) = [] := by
        rw [List.filter_eq_nil_iff]
        intro g hg hpg
        apply hno
        refine ⟨g, hg, ?_⟩
        simpa using hpg
      simp only [calculate_service_score, if_neg hor,
        if_neg (not_not_intro hIC), hfil, firstMaxBy]

/-- Witness for the amended C5 at equal one-element sets: exact-match branch,
score 100. -/
theorem C5_amended_witness :
    (calculate_service_score ["s3 object storage"] ["s3 object storage"]).score
      = 100 := by
  have h := C5_amended_service ["s3 object storage"] ["s3 object storage"]
  exact (h.2.1 (by decide) (by decide) (by decide)).2.2 (by decide)

/-! ### Claim C6: live-interval ordering -/

/-- Claim C6 shows a code bug: the comment `[22/07/2025 23:00, 01:00]`
(second date omitted, defaulting to the first) produces an interval whose
end instant precedes its start instant; the extractor performs no
`start ≤ end` check. -/
theorem C6_reversed_interval :
    extract_live_intervals [c6Comment] =
      [⟨"2025-07-22T23:00:00Z", "2025-07-22T01:00:00Z"⟩] ∧
    ¬ Interval.ordered ⟨"2025-07-22T23:00:00Z", "2025-07-22T01:00:00Z"⟩ := by
  constructor
  · decide
  · intro h
    have h2 := h ⟨2025, 7, 22, 23, 0, 0⟩ ⟨2025, 7, 22, 1, 0, 0⟩
      (by decide) (by decide)
    exact absurd h2 (by decide)

/-! ### Claim C7: entity-set hygiene -/

theorem charOfNat_toNat {n : Nat} (hv : Nat.isValidChar n) :
    (Char.ofNat n).toNat = n := by
  simp only [Char.ofNat, dif_pos hv, Char.ofNatAux, Char.toNat]
  rfl

theorem toLower_fix {c : Char} (h : ¬(65 ≤ c.toNat ∧ c.toNat ≤ 90)) :
    c.toLower = c := by
  unfold Char.toLower
  rw [if_neg]
  exact fun hc => h ⟨hc.1, hc.2⟩

theorem toLower_not_upper (c : Char) :
    ¬(65 ≤ c.toLower.toNat ∧ c.toLower.toNat ≤ 90) := by
  unfold Char.toLower
  by_cases h : c.toNat ≥ 65 ∧ c.toNat ≤ 90
  · rw [if_pos h]
    rw [charOfNat_toNat (Or.inl (by omega))]
    omega
  · rw [if_neg h]
    exact fun hc => h ⟨hc.1, hc.2⟩

theorem toLower_idem (c : Char) : c.toLower.toLower = c.toLower :=
  toLower_fix (toLower_not_upper c)

theorem map_eq_self {α : Type} (f : α → α) (l : List α) :
    l.map f = l ↔ ∀ c ∈ l, f c = c := by
  induction l with
  | nil => simp
  | cons a l ih => simp_all

theorem lower_iff (s : String) : strLower s = s ↔ LowerChars s.data := by
  unfold strLower LowerChars
  rw [String.ext_iff]
  exact map_eq_self Char.toLower s.data

theorem lowerChars_strLower (s : String) : LowerChars (strLower s).data := by
  intro c hc
  simp only [strLower, List.mem_map] at hc
  obtain ⟨d, _, rfl⟩ := hc
  exact toLower_idem d

theorem strLower_idem (s : String) : strLower (strLower s) = strLower s :=
  (lower_iff (strLower s)).mpr (lowerChars_strLower s)

theorem lowerChars_subset {cs ds : List Char} (h : ∀ c ∈ ds, c ∈ cs)
    (hl : LowerChars cs) : LowerChars ds :=
  fun c hc => hl c (h c hc)

theorem mem_stripChars {c : Char} {cs : List Char} (h : c ∈ stripChars cs) :
    c ∈ cs := by
  unfold stripChars at h
  rw [List.mem_reverse] at h
  have h2 := List.dropWhile_sublist (l := (cs.dropWhile isPySpace).reverse)
    (p := isPySpace)
  have h3 := h2.subset h
  rw [List.mem_reverse] at h3
  exact (List.dropWhile_sublist (l := cs) (p := isPySpace)).subset h3

theorem mem_removeTrailingParen {c : Char} {cs : List Char}
    (h : c ∈ removeTrailingParen cs) : c ∈ cs := by
  simp only [removeTrailingParen] at h
  split at h
  · next rest2 heq =>
    split at h
    · next revPre heq2 =>
      rw [List.mem_reverse] at h
      have h2 : c ∈ revPre :=
        (List.dropWhile_sublist (l := revPre) (p := isPySpace)).subset h
      have h3 : c ∈ List.drop (rest2.takeWhile
          (fun c => c ≠ '(' && c ≠ ')')).length rest2 := by
        rw [heq2]
        exact List.mem_cons_of_mem _ h2
      have h4 : c ∈ rest2 := (List.drop_subset _ _) h3
      have h5 : c ∈ cs.reverse.dropWhile isPySpace := by
        rw [heq]
        exact List.mem_cons_of_mem _ h4
      have h6 := (List.dropWhile_sublist (l := cs.reverse)
        (p := isPySpace)).subset h5
      rwa [List.mem_reverse] at h6
    · exact h
  · exact h

theorem buTransform_lower {cs : List Char} (h : LowerChars cs) :
    strLower (buTransform cs) = buTransform cs := by
  rw [lower_iff]
  intro c hc
  have hc2 := mem_stripChars hc
  rw [List.mem_map] at hc2
  obtain ⟨d, hd, rfl⟩ := hc2
  by_cases hu : d = '_'
  · simp [hu]
  · simp only [if_neg hu]
    exact h d hd

theorem buPrefixMatch_lower {bl : List Char} {s : String} (hl : LowerChars bl)
    (h : buPrefixMatch bl = some s) : strLower s = s := by
  obtain ⟨p, hp, hps⟩ := List.exists_of_findSome?_eq_some h
  split at hps
  · injection hps with hps
    subst hps
    exact buTransform_lower
      (lowerChars_subset (fun c hc => (List.drop_subset _ _) hc) hl)
  · exact absurd hps (by simp)

theorem buParenMatch_lower {bl : List Char} {s : String} (hl : LowerChars bl)
    (h : buParenMatch bl = some s) : strLower s = s := by
  simp only [buParenMatch] at h
  split at h
  · next revRest heq =>
    split at h
    · next revPre heq2 =>
      split at h
      · injection h with h
        subst h
        apply buTransform_lower
        intro c hc
        rw [List.mem_reverse] at hc
        have h2 : c ∈ revRest :=
          (List.takeWhile_sublist (l := revRest)
            (p := fun c => c ≠ '(')).subset hc
        have h3 : c ∈ bl.reverse := by
          rw [heq]
          exact List.mem_cons_of_mem _ h2
        rw [List.mem_reverse] at h3
        exact hl c h3
      · exact absurd h (by simp)
    · exact absurd h (by simp)
  · exact absurd h (by simp)

theorem buSuffixResult_lower (bu : String) :
    strLower (buSuffixResult (strLower bu)) = buSuffixResult (strLower bu) := by
  unfold buSuffixResult
  split
  · rw [lower_iff]
    intro c hc
    have h2 := mem_stripChars hc
    have h3 := mem_removeTrailingParen h2
    have h4 := mem_stripChars h3
    have h5 := (List.take_subset _ _) h4
    exact lowerChars_strLower bu c h5
  · exact strLower_idem bu

theorem buHierStep_lower {rec : String → Option String} {bu s : String}
    (hrec : ∀ x t, rec x = some t → strLower t = t)
    (h : buHierStep rec bu = some s) : strLower s = s := by
  unfold buHierStep at h
  split at h
  · next parsed heq =>
    split at h
    · injection h with h
      subst h
      exact hrec _ _ heq
    · injection h with h
      subst h
      exact strLower_idem _
  · injection h with h
    subst h
    exact strLower_idem _

theorem buFinal_lower {bu s : String} (h : buFinal bu = some s) :
    strLower s = s := by
  unfold buFinal at h
  have hsr := buSuffixResult_lower bu
  generalize buSuffixResult (strLower bu) = r0 at h hsr
  unfold buFinalWith at h
  split at h
  · injection h with h
    subst h
    exact hsr
  · split at h
    · injection h with h
      subst h
      exact strLower_idem _
    · exact absurd h (by simp)

theorem parseBU_lower :
    ∀ (fuel : Nat) (bu s : String), parseBU fuel bu = some s →
      strLower s = s := by
  intro fuel
  induction fuel with
  | zero =>
    intro bu s h
    exact absurd h (by simp [parseBU])
  | succ f ih =>
    intro bu s h
    rw [parseBU] at h
    split at h
    · exact absurd h (by simp)
    · have hlow : LowerChars (strLower (strStrip bu)).data :=
        lowerChars_strLower (strStrip bu)
      split at h
      · next s' heq =>
        injection h with h
        subst h
        exact buPrefixMatch_lower hlow heq
      · split at h
        · next s' heq =>
          injection h with h
          subst h
          exact buParenMatch_lower hlow heq
        · split at h
          · exact buHierStep_lower (fun x t ht => ih x t ht) h
          · exact buFinal_lower h

theorem parse_business_unit_lower {bu s : String}
    (h : parse_business_unit bu = some s) : strLower s = s :=
  parseBU_lower _ bu s h

theorem goodList_nil : GoodEntityList [] := ⟨List.nodup_nil, by simp⟩

theorem goodList_sinsert {acc : List String} {v : String}
    (h : GoodEntityList acc) (hv : IsCleanEntity v) :
    GoodEntityList (sinsert v acc) := by
  unfold sinsert
  split
  · exact h
  · next hmem =>
    constructor
    · rw [List.nodup_append]
      refine ⟨h.1, List.nodup_singleton v, ?_⟩
      intro a ha hb
      rw [List.mem_singleton] at hb
      subst hb
      exact hmem ha
    · intro x hx
      rcases List.mem_append.mp hx with hx | hx
      · exact h.2 x hx
      · rw [List.mem_singleton] at hx
        subst hx
        exact hv

theorem goodList_foldl {β : Type} (step : List String → β → List String)
    (l : List β) (acc : List String) (hacc : GoodEntityList acc)
    (hstep : ∀ a b, b ∈ l → GoodEntityList a → GoodEntityList (step a b)) :
    GoodEntityList (l.foldl step acc) := by
  induction l generalizing acc with
  | nil => exact hacc
  | cons b bs ih =>
    exact ih (step acc b) (hstep acc b (List.mem_cons_self b bs) hacc)
      (fun a x hx ha => hstep a x (List.mem_cons_of_mem _ hx) ha)

theorem goodList_filter {l : List String} (h : GoodEntityList l)
    (p : String → Bool) : GoodEntityList (l.filter p) :=
  ⟨h.1.filter p, fun v hv => h.2 v (List.mem_of_mem_filter hv)⟩

theorem goodList_pySet {l : List String} (h : ∀ v ∈ l, IsCleanEntity v) :
    GoodEntityList (pySet l) :=
  goodList_foldl _ l [] goodList_nil
    (fun _a b hb ha => goodList_sinsert ha (h b hb))

theorem tech_clean : ∀ t ∈ TECHNOLOGIES, IsCleanEntity t := by decide

theorem synonyms_clean : ∀ cs ∈ SERVICE_SYNONYMS, IsCleanEntity cs.1 := by
  decide

theorem extract_technologies_good (text : String) :
    GoodEntityList (extract_technologies text) := by
  unfold extract_technologies
  split
  · exact goodList_nil
  · exact goodList_pySet
      (fun v hv => tech_clean v (List.mem_of_mem_filter hv))

theorem extract_hosts_good (findall : HostPat → String → List String)
    (text : String)
    (hmatch : ∀ p m, m ∈ findall p (strLower text) → IsCleanEntity m) :
    GoodEntityList (extract_hosts findall text) := by
  unfold extract_hosts
  split
  · exact goodList_nil
  · have hall : GoodEntityList (HOST_PATTERNS.foldl (fun acc p =>
        (findall p (strLower text)).foldl (fun a m => sinsert m a) acc) []) :=
      goodList_foldl _ HOST_PATTERNS [] goodList_nil
        (fun a p _ ha => goodList_foldl _ (findall p (strLower text)) a ha
          (fun a2 m hm ha2 => goodList_sinsert ha2 (hmatch p m hm)))
    exact goodList_pySet
      (fun v hv => hall.2 v (List.mem_of_mem_filter hv))

theorem extract_services_good (text : String) (business_units : List String) :
    GoodEntityList (extract_services text business_units) := by
  unfold extract_services
  apply goodList_foldl
  · -- the text-derived accumulator
    split
    · -- synonym scan then tag scan
      apply goodList_foldl
      · apply goodList_foldl
        · exact goodList_nil
        · intro a cs hcs ha
          have hclean := synonyms_clean cs hcs
          have hacc1 : GoodEntityList
              (if strIn cs.1 (strLower text) then sinsert cs.1 a else a) := by
            split
            · exact goodList_sinsert ha hclean
            · exact ha
          exact goodList_foldl _ cs.2 _ hacc1
            (fun a2 al _ ha2 => by
              split
              · exact goodList_sinsert ha2 hclean
              · exact ha2)
      · intro a tag _ ha
        split
        · exact ha
        · split
          · exact ha
          · split
            · next cs' heq =>
              exact goodList_sinsert ha
                (synonyms_clean cs' (List.mem_of_find?_eq_some heq))
            · exact ha
    · exact goodList_nil
  · intro a bu _ ha
    split
    · next service heq =>
      split
      · next hne =>
        exact goodList_sinsert ha ⟨hne, parse_business_unit_lower heq⟩
      · exact ha
    · exact ha

/-- Claim C7: the three entity lists of the normalizer contain no duplicates,
no empty strings, and only lower-cased values.  `findall` abstracts the host
regex engine; its matches over the lower-cased text pool are themselves
non-empty lower-case strings (each host pattern only matches such strings). -/
theorem C7_entity_sets (findall : HostPat → String → List String)
    (text : String) (business_units : List String)
    (hmatch : ∀ p m, m ∈ findall p (strLower text) → IsCleanEntity m) :
    GoodEntityList (extract_services text business_units) ∧
    GoodEntityList (extract_hosts findall text) ∧
    GoodEntityList (extract_technologies text) :=
  ⟨extract_services_good text business_units,
   extract_hosts_good findall text hmatch,
   extract_technologies_good text⟩

/-- Witness for C7 on concrete text, business units and a host engine
reporting `s3-node-91`. -/
theorem C7_witness :
    GoodEntityList (extract_services "deploy [PROD] of s3 storage"
      ["IC-S3 Object Storage"]) ∧
    GoodEntityList (extract_hosts c7Findall "deploy [PROD] of s3 storage") ∧
    GoodEntityList (extract_technologies "deploy [PROD] of s3 storage") :=
  C7_entity_sets c7Findall "deploy [PROD] of s3 storage"
    ["IC-S3 Object Storage"]
    (by
      intro p m hm
      simp only [c7Findall, List.mem_singleton] at hm
      subst hm
      exact ⟨by decide, by decide⟩)

/-! ### Claim C8: normalizer determinism -/

/-- Claim C8 is false as stated: `extract_ticket` stamps
`extraction.extracted_at` with the wall clock (`datetime.utcnow()`), so two
invocations on identical raw fields and comments made at different instants
return Tickets that differ in the extraction metadata block. -/
theorem C8_claim_false :
    extract_ticket noHostMatches c8Raw [] "2025-07-22T10:00:00Z" ≠
    extract_ticket noHostMatches c8Raw [] "2025-07-22T10:00:05Z" := by
  intro h
  have h2 : ("2025-07-22T10:00:00Z" : String) = "2025-07-22T10:00:05Z" :=
    congrArg (fun t => t.extraction.extracted_at) h
  exact absurd h2 (by decide)

/-- Claim C8 amended: the normalizer is deterministic up to the
`extracted_at` wall-clock stamp — with the stamp cleared, the output Ticket
is a function of the raw fields, the comments and the host regex engine
alone. -/
theorem C8_amended (findall : HostPat → String → List String)
    (raw : RawIssue) (rawComments : List RawComment) (now1 now2 : String) :
    (extract_ticket findall raw rawComments now1).clearStamp =
    (extract_ticket findall raw rawComments now2).clearStamp := rfl

/-- Witness for the amended C8 on concrete raw data and two distinct
wall-clock stamps. -/
theorem C8_amended_witness :
    (extract_ticket noHostMatches c8Raw [] "t1").clearStamp =
    (extract_ticket noHostMatches c8Raw [] "t2").clearStamp :=
  C8_amended noHostMatches c8Raw [] "t1" "t2"

/-! ### Claim C9: weight-scaling invariance -/

theorem normalize_scale (w : Weights) (c : ℚ) (hc : c ≠ 0) :
    normalizeWeights ⟨c * w.time, c * w.service, c * w.infra, c * w.org⟩ =
    normalizeWeights w := by
  have hsum : c * w.time + c * w.service + c * w.infra + c * w.org =
      c * (w.time + w.service + w.infra + w.org) := by ring
  simp only [normalizeWeights, Weights.mk.injEq, hsum]
  exact ⟨mul_div_mul_left _ _ hc, mul_div_mul_left _ _ hc,
         mul_div_mul_left _ _ hc, mul_div_mul_left _ _ hc⟩

/-- Claim C9: scaling all four weights by the same positive constant leaves
`calculate_ranking` unchanged (order, keys, scores and the stored normalized
weights), because the weights are divided by their sum before use. -/
theorem C9_weight_scaling (sq : ℚ → ℚ) (data : ExtractionData) (w : Weights)
    (th : Thresholds) (pen : Penalties) (bon : Bonuses) (ms c : ℚ)
    (hc : 0 < c)
    (hw : w.time + w.service + w.infra + w.org ≠ 0) :
    calculate_ranking sq data ⟨c * w.time, c * w.service, c * w.infra, c * w.org⟩
      th pen bon ms =
    calculate_ranking sq data w th pen bon ms := by
  have hc0 : c ≠ 0 := ne_of_gt hc
  have hsum : c * w.time + c * w.service + c * w.infra + c * w.org =
      c * (w.time + w.service + w.infra + w.org) := by ring
  have hnz2 : ¬((⟨c * w.time, c * w.service, c * w.infra, c * w.org⟩ :
      Weights).time + (⟨c * w.time, c * w.service, c * w.infra, c * w.org⟩ :
      Weights).service + (⟨c * w.time, c * w.service, c * w.infra, c * w.org⟩ :
      Weights).infra + (⟨c * w.time, c * w.service, c * w.infra, c * w.org⟩ :
      Weights).org = 0) := by
    simp only [hsum]
    exact mul_ne_zero hc0 hw
  simp only [calculate_ranking, if_neg hnz2, if_neg hw,
    normalize_scale w c hc0]

/-- Witness for C9: doubling the default weights yields the very ranking of
the defaults on the tie-break candidate set. -/
theorem C9_witness :
    (0 : ℚ) < 2 ∧
    DEFAULT_WEIGHTS.time + DEFAULT_WEIGHTS.service + DEFAULT_WEIGHTS.infra +
      DEFAULT_WEIGHTS.org ≠ 0 ∧
    calculate_ranking id ⟨[tieInc, tieA, tieB]⟩
      ⟨2 * DEFAULT_WEIGHTS.time, 2 * DEFAULT_WEIGHTS.service,
       2 * DEFAULT_WEIGHTS.infra, 2 * DEFAULT_WEIGHTS.org⟩
      DEFAULT_THRESHOLDS DEFAULT_PENALTIES DEFAULT_BONUSES 0 =
    calculate_ranking id ⟨[tieInc, tieA, tieB]⟩ DEFAULT_WEIGHTS
      DEFAULT_THRESHOLDS DEFAULT_PENALTIES DEFAULT_BONUSES 0 :=
  ⟨by norm_num, by norm_num [DEFAULT_WEIGHTS],
   C9_weight_scaling id ⟨[tieInc, tieA, tieB]⟩ DEFAULT_WEIGHTS
     DEFAULT_THRESHOLDS DEFAULT_PENALTIES DEFAULT_BONUSES 0 2
     (by norm_num) (by norm_num [DEFAULT_WEIGHTS])⟩

/-! ### Claim C10: the all-zero weight map -/

/-- Claim C10: the all-zero weight map satisfies every per-field constraint
of the pydantic `Weights` model, yet `calculate_ranking` fails on it with the
division-by-zero of weight normalization, before any candidate is scored. -/
theorem C10_zero_weights :
    Weights.validModel zeroWeights ∧
    ∀ (sq : ℚ → ℚ) (data : ExtractionData) (th : Thresholds)
      (pen : Penalties) (bon : Bonuses) (ms : ℚ),
      calculate_ranking sq data zeroWeights th pen bon ms =
        .error .zeroDivision := by
  refine ⟨?_, ?_⟩
  · refine ⟨?_, ?_, ?_, ?_, ?_, ?_, ?_, ?_⟩ <;> norm_num [zeroWeights]
  · intro sq data th pen bon ms
    have h : zeroWeights.time + zeroWeights.service + zeroWeights.infra +
        zeroWeights.org = (0 : ℚ) := by norm_num [zeroWeights]
    simp only [calculate_ranking, h, if_true]

/-- Witness for C10 at a concrete candidate set. -/
theorem C10_witness :
    calculate_ranking id ⟨[tieInc, tieA, tieB]⟩ zeroWeights
      DEFAULT_THRESHOLDS DEFAULT_PENALTIES DEFAULT_BONUSES 0 =
      .error .zeroDivision :=
  C10_zero_weights.2 id ⟨[tieInc, tieA, tieB]⟩ DEFAULT_THRESHOLDS
    DEFAULT_PENALTIES DEFAULT_BONUSES 0

end IncidentCorrelator
